import Mathlib

/-! Plant monitoring dashboard: health scorer, alert rule engine, messaging
session manager, notification service, scheduler and report worker.

A shallow embedding of `backend/services/scoreCalculator.js`,
`backend/services/alertEngine.js`, `backend/services/whatsappService.js`,
`backend/services/notificationService.js`, `backend/services/scheduler.js`
and `backend/services/reportWorker.js`, with the properties of the scorer,
the rule evaluator, the session registry, the channel set, the alert tick and
the report worker proved over it.

Sensor fields are JavaScript values that the code only ever compares with
numeric literals (`<`, `>`, `>=`).  Such a comparison first applies `ToNumber`
to the field, so a field is represented by the outcome of `ToNumber`: a finite
number, `NaN`, `+Infinity` or `-Infinity`.  Every finite double is a rational
and every literal the code compares with (30, 5.5, 7.5, ...) is an exactly
representable double, so comparisons on rationals agree with the comparisons
the code performs on doubles.

Asynchronous functions are represented by what their promise settles to
(`Except`: resolved or rejected) together with the calls they made to their
collaborators, in program order.  The collaborators that are not part of the
services (the store, the transport objects) are parameters.  JavaScript
strings are represented by their characters; the code inspects them only for
ASCII digits and for the suffix `@c.us`.
-/

set_option autoImplicit false

namespace PlantMonitor

/-! ## JavaScript numbers -/

/-- The outcome of `ToNumber` on a JavaScript value. -/
inductive JsNum where
  | fin (q : ℚ)
  | nan
  | posInf
  | negInf
  deriving DecidableEq

namespace JsNum

/-- JavaScript `x < c` for a numeric literal `c`: false when `x` is `NaN`. -/
def lt (x : JsNum) (c : ℚ) : Bool :=
  match x with
  | fin q => decide (q < c)
  | nan => false
  | posInf => false
  | negInf => true

/-- JavaScript `x > c` for a numeric literal `c`: false when `x` is `NaN`. -/
def gt (x : JsNum) (c : ℚ) : Bool :=
  match x with
  | fin q => decide (c < q)
  | nan => false
  | posInf => true
  | negInf => false

/-- JavaScript `x >= c` for a numeric literal `c`: false when `x` is `NaN`. -/
def ge (x : JsNum) (c : ℚ) : Bool :=
  match x with
  | fin q => decide (c ≤ q)
  | nan => false
  | posInf => true
  | negInf => false

/-- JavaScript `x <= c` for a numeric literal `c`: false when `x` is `NaN`. -/
def le (x : JsNum) (c : ℚ) : Bool :=
  match x with
  | fin q => decide (q ≤ c)
  | nan => false
  | posInf => false
  | negInf => true

/-- A field is numeric when `ToNumber` does not give `NaN`. -/
def isNumeric (x : JsNum) : Bool :=
  match x with
  | nan => false
  | _ => true

/-- Membership of a number in the closed band `[lo, hi]` (endpoints inside).
Only a finite number can lie in a bounded band. -/
def inBand (lo hi : ℚ) (x : JsNum) : Bool :=
  match x with
  | fin q => decide (lo ≤ q ∧ q ≤ hi)
  | _ => false

/-- The number is strictly below the threshold `c`, as an order statement on
the extended number line. -/
def below (c : ℚ) (x : JsNum) : Bool :=
  match x with
  | fin q => decide (q < c)
  | negInf => true
  | _ => false

end JsNum

/-! ## Sensor readings -/

/-- The fields of a sensor reading that the scorer and the rule engine read. -/
structure SensorData where
  soil_moisture : JsNum
  temperature : JsNum
  soil_ph : JsNum
  nutrient_n : JsNum
  nutrient_p : JsNum
  nutrient_k : JsNum
  deriving DecidableEq

/-- All six fields of the reading are numbers (none is `NaN`). -/
def SensorData.numeric (d : SensorData) : Bool :=
  d.soil_moisture.isNumeric && d.temperature.isNumeric && d.soil_ph.isNumeric &&
  d.nutrient_n.isNumeric && d.nutrient_p.isNumeric && d.nutrient_k.isNumeric

/-! ## scoreCalculator.js -/

/-- `calculateHealthScore`: starts at 100, subtracts per factor, clamps. -/
def calculateHealthScore (data : SensorData) : Int :=
  let score : Int := 100
  -- 1. Soil moisture
  let score :=
    if data.soil_moisture.lt 30 || data.soil_moisture.gt 90 then score - 30
    else if data.soil_moisture.lt 40 || data.soil_moisture.gt 80 then score - 15
    else score
  -- 2. Temperature
  let score :=
    if data.temperature.gt 38 || data.temperature.lt 5 then score - 20
    else if data.temperature.gt 32 || data.temperature.lt 15 then score - 10
    else score
  -- 3. Soil pH
  let score :=
    if data.soil_ph.lt 5 || data.soil_ph.gt 8 then score - 20
    else if data.soil_ph.lt 6 || data.soil_ph.gt 7 then score - 10
    else score
  -- 4. Nutrient balance
  let score :=
    if data.nutrient_n.lt 10 || data.nutrient_p.lt 10 || data.nutrient_k.lt 10 then score - 20
    else score
  max 0 (min 100 score)

/-- The object returned by `getHealthStatus`. -/
structure HealthStatus where
  label : String
  color : String
  code : String
  deriving DecidableEq

/-- `getHealthStatus`: two `>=` tests in sequence, then the fallthrough. -/
def getHealthStatus (score : JsNum) : HealthStatus :=
  if score.ge 80 then { label := "Good", color := "green", code := "GOOD" }
  else if score.ge 50 then { label := "Moderate", color := "yellow", code := "MODERATE" }
  else { label := "Critical", color := "red", code := "CRITICAL" }

/-! ## The scoring rule as the specification words it -/

/-- Deduction of one factor with a wide band `[wlo, whi]` and a narrow band
`[nlo, nhi]`: `big` outside the wide band, else `small` outside the narrow
band, else nothing. -/
def bandDeduction (wlo whi nlo nhi : ℚ) (big small : Int) (x : JsNum) : Int :=
  if !(x.inBand wlo whi) then big
  else if !(x.inBand nlo nhi) then small
  else 0

/-- Moisture: 30 outside `[30,90]`, else 15 outside `[40,80]`, else 0. -/
def moistureDeduction (x : JsNum) : Int := bandDeduction 30 90 40 80 30 15 x

/-- Temperature: 20 outside `[5,38]`, else 10 outside `[15,32]`, else 0. -/
def temperatureDeduction (x : JsNum) : Int := bandDeduction 5 38 15 32 20 10 x

/-- Soil pH: 20 outside `[5.0,8.0]`, else 10 outside `[6.0,7.0]`, else 0. -/
def phDeduction (x : JsNum) : Int := bandDeduction 5 8 6 7 20 10 x

/-- Nutrients: 20 if any of N, P, K is below 10, else 0. -/
def nutrientDeduction (n p k : JsNum) : Int :=
  if n.below 10 || p.below 10 || k.below 10 then 20 else 0

/-! ## alertEngine.js -/

/-- An element of the `alerts` array: `{ message, type, priority }`. -/
structure AlertDraft where
  message : String
  type : String
  priority : String
  deriving DecidableEq

/-- The object pushed by the soil moisture rule. -/
def moistureAlert : AlertDraft :=
  { message := "Irrigation needed: Soil moisture is below 30%",
    type := "irrigation", priority := "high" }

/-- The object pushed by the temperature rule. -/
def temperatureAlert : AlertDraft :=
  { message := "Heat stress alert: Temperature exceeds 38°C",
    type := "weather", priority := "critical" }

/-- The object pushed by the soil pH rule. -/
def phAlert : AlertDraft :=
  { message := "Soil correction required: pH level is outside optimal range (5.5-7.5)",
    type := "soil", priority := "medium" }

/-- The rule block of `processAlertRules`: the `alerts` array after the three
`if` statements, each of which pushes at the end of the array. -/
def alertDrafts (data : SensorData) : List AlertDraft :=
  let alerts : List AlertDraft := []
  let alerts := if data.soil_moisture.lt 30 then alerts ++ [moistureAlert] else alerts
  let alerts := if data.temperature.gt 38 then alerts ++ [temperatureAlert] else alerts
  let alerts :=
    if data.soil_ph.lt 5.5 || data.soil_ph.gt 7.5 then alerts ++ [phAlert] else alerts
  alerts

/-- An error thrown by the runtime or a rejection of a store promise. -/
inductive JsError where
  | typeError (msg : String)
  | storeError (msg : String)
  | transportError (msg : String)
  deriving DecidableEq

/-- The row selected by the plant/owner join. `whatsapp_number` is a nullable
text column. -/
structure PlantDetails where
  plant_name : String
  whatsapp_number : Option String
  user_id : Nat
  full_name : String
  deriving DecidableEq

/-- The statements `processAlertRules` hands to the store. -/
inductive Statement where
  | selectPlantOwner (plantId : Nat)
  | insertAlert (plantId : Nat) (message type priority status : String)
  | insertChatMessage (senderId receiverId : Nat) (message : String)
      (sensorSummary : SensorData)
  deriving DecidableEq

/-- What `processAlertRules` does to the outside, in program order: a
statement given to the store (`query` or `run`), or a call of a function
imported from `whatsappService` with a destination and a message body. -/
inductive Effect where
  | store (stmt : Statement)
  | call (fn : String) (dest body : String)
  deriving DecidableEq

/-- The collaborators of `processAlertRules`: `query` and `run` of
`models/database` (each may reject), and the outcome of calling a function
that `whatsappService` exports. -/
structure Env where
  query : Nat → Except JsError (List PlantDetails)
  run : Statement → Except JsError Unit
  call : String → String → String → Except JsError Unit

/-- The names in `module.exports` of `whatsappService.js`. -/
def whatsappServiceExports : List String :=
  ["initializeBotanistWhatsApp", "getBotanistStatus", "sendFromBotanist",
   "disconnectBotanist", "getAnyActiveClient"]

/-- Destructuring `const { name } = require('./whatsappService')`: the
exported function of that name, or `undefined` (`none`) when the module
exports no such name. -/
def requireWhatsappService (name : String) : Option String :=
  if name ∈ whatsappServiceExports then some name else none

/-- The binding `sendWhatsAppMessage` of `alertEngine.js`, line 2. -/
def sendWhatsAppMessage : Option String :=
  requireWhatsappService "sendWhatsAppMessage"

/-- JavaScript truthiness of a nullable string: neither `null` nor empty. -/
def truthy (s : Option String) : Bool :=
  match s with
  | none => false
  | some v => v != ""

/-- What a run of `processAlertRules` leaves behind: the effects it performed,
in order, and whether its promise resolved or rejected. -/
structure Outcome where
  trace : List Effect
  result : Except JsError Unit

/-- The text of `fullMessage` for one alert. -/
def fullMessage (plantName : String) (alert : AlertDraft) : String :=
  "🚨 [" ++ alert.priority.toUpper ++ "] " ++ plantName ++ ": " ++ alert.message

/-- The `for (const alert of alerts)` loop of `processAlertRules`. An error of
an awaited call ends the loop and rejects the promise. -/
def alertLoop (env : Env) (plantId : Nat) (data : SensorData) (row : PlantDetails) :
    List AlertDraft → List Effect → Outcome
  | [], tr => ⟨tr, .ok ()⟩
  | alert :: rest, tr =>
    let msg := fullMessage row.plant_name alert
    -- 1. Store in database
    let ins := Statement.insertAlert plantId alert.message alert.type alert.priority "sent"
    let tr := tr ++ [.store ins]
    match env.run ins with
    | .error e => ⟨tr, .error e⟩
    | .ok _ =>
      -- 2. Delivery - WhatsApp
      let delivery : Outcome :=
        if truthy row.whatsapp_number then
          match sendWhatsAppMessage with
          | none => ⟨tr, .error (.typeError "sendWhatsAppMessage is not a function")⟩
          | some fn =>
            let dest := row.whatsapp_number.getD ""
            ⟨tr ++ [.call fn dest msg], env.call fn dest msg⟩
        else ⟨tr, .ok ()⟩
      match delivery.result with
      | .error e => ⟨delivery.trace, .error e⟩
      | .ok _ =>
        -- 3. Delivery - chat notification
        let chat := Statement.insertChatMessage 1 row.user_id ("SYSTEM ALERT: " ++ msg) data
        let tr := delivery.trace ++ [.store chat]
        match env.run chat with
        | .error e => ⟨tr, .error e⟩
        | .ok _ => alertLoop env plantId data row rest tr

/-- `processAlertRules(plantId, data)`. -/
def processAlertRules (env : Env) (plantId : Nat) (data : SensorData) : Outcome :=
  let alerts := alertDrafts data
  if alerts.length = 0 then ⟨[], .ok ()⟩
  else
    let sel := Statement.selectPlantOwner plantId
    let tr : List Effect := [.store sel]
    match env.query plantId with
    | .error e => ⟨tr, .error e⟩
    | .ok plantDetails =>
      match plantDetails with
      | [] => ⟨tr, .ok ()⟩
      | row :: _ => alertLoop env plantId data row alerts tr

/-- The alert rows a run inserted. -/
def Outcome.alertInserts (o : Outcome) : List Effect :=
  o.trace.filter fun e =>
    match e with
    | .store (.insertAlert ..) => true
    | _ => false

/-- The chat messages a run inserted. -/
def Outcome.chatInserts (o : Outcome) : List Effect :=
  o.trace.filter fun e =>
    match e with
    | .store (.insertChatMessage ..) => true
    | _ => false

/-- The calls into `whatsappService` a run made. -/
def Outcome.sendAttempts (o : Outcome) : List Effect :=
  o.trace.filter fun e =>
    match e with
    | .call .. => true
    | _ => false

/-- The run's promise resolved. -/
def Outcome.completed (o : Outcome) : Bool :=
  match o.result with
  | .ok _ => true
  | .error _ => false

/-! ## whatsappService.js -/

/-- The object `clientData` stored in `botanistClients`. The transport object
`client` is represented by its handle: the number of `Client` objects
constructed before it. -/
structure ClientData where
  client : Nat
  isReady : Bool
  qrCodeImage : Option String
  qrCodeData : Option String
  deriving DecidableEq

/-- The module state of `whatsappService.js`: the map `botanistClients` from
user id to `clientData`, in insertion order, and the number of `Client`
objects constructed so far. -/
structure WaState where
  botanistClients : List (Nat × ClientData)
  created : Nat
  deriving DecidableEq

/-- The module state at load: `new Map()`. -/
def WaState.empty : WaState := { botanistClients := [], created := 0 }

/-- `Map.prototype.get` on an insertion-ordered list of entries. -/
def mapGet (m : List (Nat × ClientData)) (key : Nat) : Option ClientData :=
  match m with
  | [] => none
  | (k, v) :: rest => if k = key then some v else mapGet rest key

/-- `Map.prototype.set`: an existing key keeps its position and gets the new
value, a new key is added at the end. -/
def mapSet (m : List (Nat × ClientData)) (key : Nat) (value : ClientData) :
    List (Nat × ClientData) :=
  match m with
  | [] => [(key, value)]
  | (k, v) :: rest => if k = key then (k, value) :: rest else (k, v) :: mapSet rest key value

/-- `Map.prototype.delete`. -/
def mapDelete (m : List (Nat × ClientData)) (key : Nat) : List (Nat × ClientData) :=
  m.filter fun e => e.1 != key

/-- `botanistClients.get(userId)`. -/
def WaState.get (s : WaState) (userId : Nat) : Option ClientData :=
  mapGet s.botanistClients userId

/-- A call of a method of a transport object (`Client` of whatsapp-web.js). -/
inductive TransportCall where
  | construct (client : Nat) (clientId : String)
  | clientInitialize (client : Nat)
  | isRegisteredUser (client : Nat) (chatId : String)
  | sendMessage (client : Nat) (chatId body : String)
  | destroy (client : Nat)
  deriving DecidableEq

/-- The statements `whatsappService.js` hands to the store. -/
inductive WaStatement where
  | setSessionActive (sessionId : String) (userId : Nat)
  | clearSessionActive (userId : Nat)
  deriving DecidableEq

/-- The collaborators of `whatsappService.js`: the methods of the transport
objects, each of which may throw (a method the transport does not support
throws a `TypeError`), and `run` of `models/database`. -/
structure Transport where
  isRegisteredUser : Nat → String → Except JsError Bool
  sendMessage : Nat → String → String → Except JsError Unit
  destroy : Nat → Except JsError Unit
  run : WaStatement → Except JsError Unit

/-- The value of the template literal with the text `botanist_` followed by
the user id. -/
def sessionId (userId : Nat) : String := "botanist_" ++ toString userId

/-- What a call of `initializeBotanistWhatsApp` leaves behind. -/
structure InitOutcome where
  state : WaState
  client : Nat
  calls : List TransportCall

/-- `initializeBotanistWhatsApp(userId)`, up to its `return`; the handlers it
registers are the event functions below. -/
def initializeBotanistWhatsApp (s : WaState) (userId : Nat) : InitOutcome :=
  let fresh : InitOutcome :=
    let client := s.created
    let clientData : ClientData :=
      { client := client, isReady := false, qrCodeImage := none, qrCodeData := none }
    { state := { botanistClients := mapSet s.botanistClients userId clientData,
                 created := s.created + 1 }
      client := client
      calls := [.construct client (sessionId userId), .clientInitialize client] }
  match s.get userId with
  | some existing => if existing.isReady then ⟨s, existing.client, []⟩ else fresh
  | none => fresh

/-- An assignment to fields of the `clientData` object that the handlers of
transport object `client` closed over. The object is visible through the map
only while it is the value of an entry. -/
def updateClient (s : WaState) (client : Nat) (f : ClientData → ClientData) : WaState :=
  { s with botanistClients :=
      s.botanistClients.map fun e => if e.2.client = client then (e.1, f e.2) else e }

/-- The `qr` handler up to its `await`: `clientData.qrCodeData = qr`. -/
def onQr (s : WaState) (client : Nat) (qr : String) : WaState :=
  updateClient s client fun cd => { cd with qrCodeData := some qr }

/-- The `qr` handler after `await QRCode.toDataURL(qr)` resolved with
`image`: `clientData.qrCodeImage = image`. When the promise rejects the
handler assigns nothing. -/
def onQrImage (s : WaState) (client : Nat) (image : String) : WaState :=
  updateClient s client fun cd => { cd with qrCodeImage := some image }

/-- The `ready` handler's assignments. -/
def onReady (s : WaState) (client : Nat) : WaState :=
  updateClient s client fun cd =>
    { cd with isReady := true, qrCodeImage := none, qrCodeData := none }

/-- The `auth_failure` handler. -/
def onAuthFailure (s : WaState) (client : Nat) : WaState :=
  updateClient s client fun cd => { cd with isReady := false }

/-- The `disconnected` handler's assignment. -/
def onDisconnected (s : WaState) (client : Nat) : WaState :=
  updateClient s client fun cd => { cd with isReady := false }

/-- The object returned by `getBotanistStatus`. -/
structure BotanistStatus where
  isReady : Bool
  qrCodeImage : Option String
  deriving DecidableEq

/-- `getBotanistStatus(userId)`. -/
def getBotanistStatus (s : WaState) (userId : Nat) : BotanistStatus :=
  match s.get userId with
  | none => { isReady := false, qrCodeImage := none }
  | some clientData =>
    { isReady := clientData.isReady, qrCodeImage := clientData.qrCodeImage }

/-- The digits of a string, in order: `to.replace(/\D/g, '')`. -/
def stripNonDigits (dest : String) : String :=
  ⟨dest.data.filter Char.isDigit⟩

/-- `String.prototype.endsWith`. -/
def endsWith (s suffix : String) : Bool :=
  suffix.data.isSuffixOf s.data

/-- The `// Format number` block of `sendFromBotanist`: the chat id. -/
def formatNumber (dest : String) : String :=
  let number := stripNonDigits dest
  let number := if number.length = 10 then "91" ++ number else number
  let number := if !endsWith number "@c.us" then number ++ "@c.us" else number
  number

/-- What a call of `sendFromBotanist` leaves behind: what its promise settles
to and the transport calls it made, in order. -/
structure SendOutcome where
  result : Except JsError Bool
  calls : List TransportCall

/-- The body of the `try` block of `sendFromBotanist`. The destination is
`none` for `null`, `undefined` or any other value that is no string, on which
`to.replace(...)` throws a `TypeError`. -/
def sendAttempt (tp : Transport) (client : Nat) (dest : Option String) (body : String) :
    SendOutcome :=
  match dest with
  | none => ⟨.error (.typeError "Cannot read properties of null"), []⟩
  | some address =>
    let chatId := formatNumber address
    -- Check registration
    let calls := [TransportCall.isRegisteredUser client chatId]
    match tp.isRegisteredUser client chatId with
    | .error e => ⟨.error e, calls⟩
    | .ok _ =>
      let calls := calls ++ [TransportCall.sendMessage client chatId body]
      match tp.sendMessage client chatId body with
      | .error e => ⟨.error e, calls⟩
      | .ok _ => ⟨.ok true, calls⟩

/-- `sendFromBotanist(botanistId, to, body)`. -/
def sendFromBotanist (tp : Transport) (s : WaState) (botanistId : Nat)
    (dest : Option String) (body : String) : SendOutcome :=
  match s.get botanistId with
  | none => ⟨.ok false, []⟩
  | some clientData =>
    if !clientData.isReady then ⟨.ok false, []⟩
    else
      let attempt := sendAttempt tp clientData.client dest body
      match attempt.result with
      | .ok b => ⟨.ok b, attempt.calls⟩
      | .error _ => ⟨.ok false, attempt.calls⟩

/-- What a call of `disconnectBotanist` leaves behind. -/
structure DisconnectOutcome where
  state : WaState
  result : Except JsError Unit
  calls : List TransportCall
  statements : List WaStatement

/-- `disconnectBotanist(userId)`. -/
def disconnectBotanist (tp : Transport) (s : WaState) (userId : Nat) : DisconnectOutcome :=
  match s.get userId with
  | none => ⟨s, .ok (), [], []⟩
  | some clientData =>
    match tp.destroy clientData.client with
    | .error e => ⟨s, .error e, [.destroy clientData.client], []⟩
    | .ok _ =>
      let s1 := { s with botanistClients := mapDelete s.botanistClients userId }
      match tp.run (.clearSessionActive userId) with
      | .error e => ⟨s1, .error e, [.destroy clientData.client], [.clearSessionActive userId]⟩
      | .ok _ => ⟨s1, .ok (), [.destroy clientData.client], [.clearSessionActive userId]⟩

/-- What can happen to the session registry: a call of one of the two
lifecycle functions, or a handler of a transport object running. -/
inductive WaEvent where
  | connect (userId : Nat)
  | disconnect (userId : Nat)
  | qr (client : Nat) (qr : String)
  | qrImage (client : Nat) (image : String)
  | ready (client : Nat)
  | authFailure (client : Nat)
  | disconnected (client : Nat)
  deriving DecidableEq

/-- The module state after one event. -/
def stepWa (tp : Transport) (s : WaState) (e : WaEvent) : WaState :=
  match e with
  | .connect userId => (initializeBotanistWhatsApp s userId).state
  | .disconnect userId => (disconnectBotanist tp s userId).state
  | .qr client qr => onQr s client qr
  | .qrImage client image => onQrImage s client image
  | .ready client => onReady s client
  | .authFailure client => onAuthFailure s client
  | .disconnected client => onDisconnected s client

/-- The module state after a sequence of events, from the empty map. -/
def runWa (tp : Transport) (events : List WaEvent) : WaState :=
  events.foldl (stepWa tp) WaState.empty

/-- The transport object `client` has no Connected session in the map. -/
def notConnected (s : WaState) (client : Nat) : Bool :=
  s.botanistClients.all fun e => !(e.2.client = client && e.2.isReady)

/-- The event respects the pairing order of the transport: the `qr` handler
(either half of it) does not run for a transport object whose session is
Connected. -/
def pairingOrdered (s : WaState) (e : WaEvent) : Bool :=
  match e with
  | .qr client _ => notConnected s client
  | .qrImage client _ => notConnected s client
  | _ => true

/-- Every event of the sequence respects the pairing order in the state it
arrives in. -/
def pairingOrderedFrom (tp : Transport) (s : WaState) : List WaEvent → Bool
  | [] => true
  | e :: rest => pairingOrdered s e && pairingOrderedFrom tp (stepWa tp s e) rest

/-- No Connected session of the map carries a pairing artifact (neither the
pairing code nor its image). -/
def artifactFree (s : WaState) : Prop :=
  ∀ e ∈ s.botanistClients, e.2.isReady = true →
    e.2.qrCodeImage = none ∧ e.2.qrCodeData = none

/-- A transport all of whose calls succeed and that reports every address as
registered. -/
def okTransport : Transport :=
  { isRegisteredUser := fun _ _ => .ok true
    sendMessage := fun _ _ _ => .ok ()
    destroy := fun _ => .ok ()
    run := fun _ => .ok () }

/-- A transport whose registration probe throws. -/
def probeFailingTransport : Transport :=
  { okTransport with
    isRegisteredUser := fun _ _ => .error (.transportError "probe failed") }

/-- Two botanists connect: botanist 1 (transport object 0) is paired and
becomes Connected; botanist 2 (transport object 1) receives its pairing code
and image and is still awaiting pairing. -/
def pairingRun : List WaEvent :=
  [.connect 1, .connect 2, .qr 0 "code", .qrImage 0 "img", .ready 0,
   .qr 1 "code2", .qrImage 1 "img2"]

/-- A registry in which botanist 1 is Connected through transport object 0. -/
def connectedState : WaState :=
  { botanistClients := [(1, ⟨0, true, none, none⟩)], created := 1 }

/-! ## notificationService.js -/

/-- The `user` argument of `NotificationService.send`: `{ phone, email,
whatsapp_number }`, each a string or absent. -/
structure NotifyUser where
  phone : Option String
  email : Option String
  whatsapp_number : Option String
  deriving DecidableEq

/-- An element of the `results` array. -/
structure ChannelResult where
  channel : String
  success : Bool
  error : Option String
  deriving DecidableEq

/-- A recorded call `sendFromBotanist(botanistId, to, body)`. -/
structure SendCall where
  botanistId : Nat
  dest : Option String
  body : String
  deriving DecidableEq

/-- What a call of `NotificationService.send` leaves behind: what its promise
settles to, its calls of `sendFromBotanist` and the transport calls made
through them. -/
structure NotifyOutcome where
  result : Except JsError (List ChannelResult)
  sends : List SendCall
  calls : List TransportCall

/-- JavaScript truthiness of an optional user id: neither `null` nor `0`. -/
def idTruthy (id : Option Nat) : Bool :=
  match id with
  | none => false
  | some n => n != 0

/-- The channel selection in force: the parameter default `['whatsapp']` when
the argument is absent. -/
def effectiveChannels (channels : Option (List String)) : List String :=
  channels.getD ["whatsapp"]

/-- The WhatsApp branch of `NotificationService.send`: the `if` / `else if`
on `channels.includes('whatsapp')`. -/
def sendWhatsappChannel (tp : Transport) (s : WaState) (user : NotifyUser) (message : String)
    (channels : List String) (botanistId : Option Nat) : NotifyOutcome :=
  let results : List ChannelResult := []
  if channels.contains "whatsapp" && truthy user.whatsapp_number && idTruthy botanistId then
    let id := botanistId.getD 0
    let out := sendFromBotanist tp s id user.whatsapp_number message
    let sends := [SendCall.mk id user.whatsapp_number message]
    match out.result with
    | .error e => ⟨.error e, sends, out.calls⟩
    | .ok sent => ⟨.ok (results ++ [⟨"whatsapp", sent, none⟩]), sends, out.calls⟩
  else if channels.contains "whatsapp" && truthy user.whatsapp_number
      && !idTruthy botanistId then
    ⟨.ok (results ++ [⟨"whatsapp", false, some "No botanist ID"⟩]), [], []⟩
  else ⟨.ok results, [], []⟩

/-- `NotificationService.send(user, message, channels, botanistId)`. -/
def NotificationService.send (tp : Transport) (s : WaState) (user : NotifyUser)
    (message : String) (channels : Option (List String)) (botanistId : Option Nat) :
    NotifyOutcome :=
  let channels := effectiveChannels channels
  let wa := sendWhatsappChannel tp s user message channels botanistId
  match wa.result with
  | .error e => ⟨.error e, wa.sends, wa.calls⟩
  | .ok results =>
    let results :=
      if channels.contains "email" && truthy user.email then
        results ++ [⟨"email", true, none⟩]
      else results
    let results :=
      if channels.contains "sms" && truthy user.phone then
        results ++ [⟨"sms", true, none⟩]
      else results
    ⟨.ok results, wa.sends, wa.calls⟩

/-- The entries of a result array for one channel. -/
def entriesOf (channel : String) (results : List ChannelResult) : List ChannelResult :=
  results.filter fun r => r.channel == channel

/-- A user with all three addresses. -/
def sampleUser : NotifyUser :=
  { phone := some "9876543210", email := some "ravi@example.com",
    whatsapp_number := some "9876543210" }

/-! ## scheduler.js -/

/-- A row of the due scan of the alert tick: the alert joined with its plant
and the plant's owner. -/
structure DueAlert where
  alert_id : Nat
  message : String
  plant_name : String
  created_by_botanist_id : Option Nat
  whatsapp_number : Option String
  phone : Option String
  email : Option String
  deriving DecidableEq

/-- What the alert tick does to the outside, in program order. -/
inductive TickEffect where
  | scan
  | send (call : SendCall)
  | transport (call : TransportCall)
  | mockEmail (dest message : String)
  | mockSms (dest message : String)
  | markSent (alertId : Nat)
  deriving DecidableEq

/-- The store as the alert tick sees it: the outcome of the due scan
(`status = 'pending' AND scheduled_time <= now`) and of the statement
`UPDATE alerts SET status = 'sent' WHERE alert_id = ?`. -/
structure SchedulerStore where
  dueAlerts : Except JsError (List DueAlert)
  markSent : Nat → Except JsError Unit

/-- The effects of a stretch of code and whether it ended by an exception. -/
structure TickRun where
  result : Except JsError Unit
  trace : List TickEffect

/-- The text of `message` for one due alert. -/
def tickMessage (alert : DueAlert) : String :=
  "🌱 Alert for " ++ alert.plant_name ++ ": " ++ alert.message

/-- One iteration of the `for (const alert of alerts)` loop of the alert
tick. -/
def tickRow (tp : Transport) (st : SchedulerStore) (s : WaState) (alert : DueAlert) :
    TickRun :=
  let message := tickMessage alert
  let botanistId := alert.created_by_botanist_id
  -- WhatsApp through the creator's session
  let delivery : TickRun :=
    if !idTruthy botanistId then ⟨.ok (), []⟩
    else
      let id := botanistId.getD 0
      let out := sendFromBotanist tp s id alert.whatsapp_number message
      let tr := TickEffect.send ⟨id, alert.whatsapp_number, message⟩ ::
        out.calls.map TickEffect.transport
      match out.result with
      | .error e => ⟨.error e, tr⟩
      | .ok _ => ⟨.ok (), tr⟩
  match delivery.result with
  | .error e => ⟨.error e, delivery.trace⟩
  | .ok _ =>
    -- Send email/SMS (mock)
    let tr := delivery.trace
    let tr := if truthy alert.email then tr ++ [.mockEmail (alert.email.getD "") message] else tr
    let tr := if truthy alert.phone then tr ++ [.mockSms (alert.phone.getD "") message] else tr
    -- Mark as sent
    let tr := tr ++ [.markSent alert.alert_id]
    match st.markSent alert.alert_id with
    | .error e => ⟨.error e, tr⟩
    | .ok _ => ⟨.ok (), tr⟩

/-- The `for (const alert of alerts)` loop of the alert tick: an exception in
one iteration leaves the loop. -/
def tickLoop (tp : Transport) (st : SchedulerStore) (s : WaState) : List DueAlert → TickRun
  | [] => ⟨.ok (), []⟩
  | alert :: rest =>
    let row := tickRow tp st s alert
    match row.result with
    | .error e => ⟨.error e, row.trace⟩
    | .ok _ =>
      let more := tickLoop tp st s rest
      ⟨more.result, row.trace ++ more.trace⟩

/-- What one run of the alert tick leaves behind: what its promise settles
to, the error its `catch` logged (if any), and its effects. -/
structure TickOutcome where
  result : Except JsError Unit
  caught : Option JsError
  trace : List TickEffect

/-- The callback of `cron.schedule('* * * * *', ...)`: the alert tick. -/
def alertTick (tp : Transport) (st : SchedulerStore) (s : WaState) : TickOutcome :=
  let body : TickRun :=
    match st.dueAlerts with
    | .error e => ⟨.error e, [.scan]⟩
    | .ok alerts =>
      if alerts.length = 0 then ⟨.ok (), [.scan]⟩
      else
        let loop := tickLoop tp st s alerts
        ⟨loop.result, TickEffect.scan :: loop.trace⟩
  match body.result with
  | .error e => ⟨.ok (), some e, body.trace⟩
  | .ok _ => ⟨.ok (), none, body.trace⟩

/-- The alert ids of the `UPDATE ... SET status = 'sent'` statements of a
trace, in order. -/
def markedIds (trace : List TickEffect) : List Nat :=
  trace.filterMap fun e =>
    match e with
    | .markSent id => some id
    | _ => none

/-- The calls of `sendFromBotanist` of a trace, in order. -/
def sendCalls (trace : List TickEffect) : List SendCall :=
  trace.filterMap fun e =>
    match e with
    | .send c => some c
    | _ => none

/-- A row of the table `alerts`, with the columns the alert tick reads or
writes. `status` and `scheduled_time` are nullable; timestamps are in
seconds. -/
structure AlertRow where
  alert_id : Nat
  plant_id : Nat
  message : String
  status : Option String
  scheduled_time : Option Int
  created_by_botanist_id : Option Nat
  deriving DecidableEq

/-- A row of the table `plants`; `user_id` is nullable. -/
structure PlantRow where
  plant_id : Nat
  plant_name : String
  user_id : Option Nat
  deriving DecidableEq

/-- A row of the table `users`. -/
structure UserRow where
  user_id : Nat
  whatsapp_number : Option String
  phone : Option String
  email : Option String
  deriving DecidableEq

/-- The three tables the due scan of the alert tick reads. `plant_id` and
`user_id` are the primary keys of `plants` and `users`. -/
structure SchedulerDb where
  alerts : List AlertRow
  plants : List PlantRow
  users : List UserRow
  deriving DecidableEq

/-- The row the due scan returns for one alert, at time `now`, if any:
`FROM alerts a JOIN plants p ON a.plant_id = p.plant_id JOIN users u ON
p.user_id = u.user_id WHERE a.status = 'pending' AND a.scheduled_time <= now`.
The joins are inner joins on primary keys: the alert is returned once, with
its plant and the owner of the plant, and not at all when the plant does not
exist, the plant has no owner (`user_id` null) or the owner does not exist. A
null `status` or `scheduled_time` makes the `WHERE` clause null, hence not
true. -/
def joinDue (now : Int) (db : SchedulerDb) (a : AlertRow) : Option DueAlert :=
  if a.status == some "pending" &&
      (match a.scheduled_time with
       | some t => decide (t ≤ now)
       | none => false) then
    match db.plants.find? fun p => p.plant_id == a.plant_id with
    | none => none
    | some p =>
      match p.user_id with
      | none => none
      | some owner =>
        match db.users.find? fun u => u.user_id == owner with
        | none => none
        | some u =>
          some { alert_id := a.alert_id, message := a.message, plant_name := p.plant_name,
                 created_by_botanist_id := a.created_by_botanist_id,
                 whatsapp_number := u.whatsapp_number, phone := u.phone, email := u.email }
  else none

/-- The due scan of the alert tick on the tables, at time `now`, in the order
of the table `alerts`. -/
def dueScan (now : Int) (db : SchedulerDb) : List DueAlert :=
  db.alerts.filterMap (joinDue now db)

/-- The statement `UPDATE alerts SET status = 'sent' WHERE alert_id = ?` on
the table `alerts`. -/
def applyMarkSent (alerts : List AlertRow) (alertId : Nat) : List AlertRow :=
  alerts.map fun a => if a.alert_id = alertId then { a with status := some "sent" } else a

/-- The tables after the updates of a trace, in order. -/
def applyTrace (db : SchedulerDb) (trace : List TickEffect) : SchedulerDb :=
  { db with alerts := (markedIds trace).foldl applyMarkSent db.alerts }

/-- A store that answers the due scan from the tables as they stand at time
`now` and accepts every update. -/
def tableStore (now : Int) (db : SchedulerDb) : SchedulerStore :=
  { dueAlerts := .ok (dueScan now db)
    markSent := fun _ => .ok () }

/-- Two alert ticks one after the other: the second tick starts after the
first has finished, so its scan reads the tables the first tick left. The
result is the two traces. -/
def sequentialTicks (tp : Transport) (s : WaState) (now1 now2 : Int)
    (db : SchedulerDb) : List TickEffect × List TickEffect :=
  let first := alertTick tp (tableStore now1 db) s
  let db1 := applyTrace db first.trace
  let second := alertTick tp (tableStore now2 db1) s
  (first.trace, second.trace)

/-- Two alert ticks that overlap: the callback holds no lock and no running
flag, so a second run whose `await query(...)` resolves before the first run
reaches its first `UPDATE` scans the same tables. The result is the two
traces. -/
def overlappingTicks (tp : Transport) (s : WaState) (now1 now2 : Int)
    (db : SchedulerDb) : List TickEffect × List TickEffect :=
  let first := alertTick tp (tableStore now1 db) s
  let second := alertTick tp (tableStore now2 db) s
  (first.trace, second.trace)

/-! ## reportWorker.js -/

/-- A row of the due scan of the report worker: the schedule joined with its
user. Timestamps are in seconds. -/
structure ReportSchedule where
  schedule_id : Nat
  user_id : Nat
  report_type : String
  format : Option String
  last_sent : Option Int
  full_name : String
  whatsapp_number : Option String
  email : Option String
  deriving DecidableEq

/-- The length of a day in seconds. -/
def secondsPerDay : Int := 86400

/-- The `WHERE` clause of the due scan of the report worker, at time `now`:
`last_sent IS NULL OR (report_type = 'weekly' AND last_sent <= now - 7 days)
OR (report_type = 'monthly' AND last_sent <= now - 30 days)`. A comparison
with a null `last_sent` is null, hence not true. -/
def isDue (now : Int) (s : ReportSchedule) : Bool :=
  s.last_sent.isNone ||
  (s.report_type == "weekly" &&
    (match s.last_sent with
     | some t => decide (t ≤ now - 7 * secondsPerDay)
     | none => false)) ||
  (s.report_type == "monthly" &&
    (match s.last_sent with
     | some t => decide (t ≤ now - 30 * secondsPerDay)
     | none => false))

/-- The due rule of a report schedule as the specification words it: due when
`last_sent` is null, or `now - last_sent` is at least the cadence of the
type, 7 days for weekly and 30 days for monthly. -/
def specDue (now : Int) (s : ReportSchedule) : Prop :=
  s.last_sent = none ∨
  (s.report_type = "weekly" ∧ ∃ t, s.last_sent = some t ∧ now - t ≥ 7 * secondsPerDay) ∨
  (s.report_type = "monthly" ∧ ∃ t, s.last_sent = some t ∧ now - t ≥ 30 * secondsPerDay)

/-- What the report worker does to the outside, in program order. -/
inductive ReportEffect where
  | scan
  | queryPlots (userId : Nat)
  | call (fn : String) (dest body : String)
  | updateLastSent (scheduleId : Nat)
  deriving DecidableEq

/-- The collaborators of the report worker: the outcome of the due scan, of
the plant query of a user (the ids of the user's plants), of the statement
`UPDATE report_schedules SET last_sent = CURRENT_TIMESTAMP WHERE schedule_id =
?`, and of a call of a function that `whatsappService` exports. -/
structure ReportStore where
  dueSchedules : Except JsError (List ReportSchedule)
  plots : Nat → Except JsError (List Nat)
  updateLastSent : Nat → Except JsError Unit
  call : String → String → String → Except JsError Unit

/-- The effects of a stretch of the report worker and whether it ended by an
exception. -/
structure ReportRun where
  result : Except JsError Unit
  trace : List ReportEffect

/-- The text of `fileName`; `today` is the date part of
`new Date().toISOString()`. A null `format` prints as `null`. -/
def reportFileName (s : ReportSchedule) (today : String) : String :=
  s.report_type ++ "_report_" ++ today ++ "." ++ s.format.getD "null"

/-- The delivery block of one schedule: `if (s.whatsapp_number) { ... }`.
`s.format.toUpperCase()` throws on a null format, and the call goes through
the binding `sendWhatsAppMessage` that `reportWorker.js` destructures from
`whatsappService` in its line 2, as `alertEngine.js` does. -/
def reportDelivery (st : ReportStore) (today : String) (s : ReportSchedule) : ReportRun :=
  if truthy s.whatsapp_number then
    match s.format with
    | none => ⟨.error (.typeError "Cannot read properties of null"), []⟩
    | some format =>
      let message := "ðŸ“‚ Your " ++ s.report_type ++ " " ++ format.toUpper ++
        " report is ready: " ++ reportFileName s today
      match sendWhatsAppMessage with
      | none => ⟨.error (.typeError "sendWhatsAppMessage is not a function"), []⟩
      | some fn =>
        let dest := s.whatsapp_number.getD ""
        ⟨st.call fn dest message, [.call fn dest message]⟩
  else ⟨.ok (), []⟩

/-- The `for (const s of schedules)` loop of `processScheduledReports`. -/
def reportLoop (st : ReportStore) (today : String) : List ReportSchedule → ReportRun
  | [] => ⟨.ok (), []⟩
  | s :: rest =>
    match st.plots s.user_id with
    | .error e => ⟨.error e, [.queryPlots s.user_id]⟩
    | .ok plots =>
      if plots.length = 0 then
        -- continue
        let more := reportLoop st today rest
        ⟨more.result, ReportEffect.queryPlots s.user_id :: more.trace⟩
      else
        let delivery := reportDelivery st today s
        match delivery.result with
        | .error e => ⟨.error e, ReportEffect.queryPlots s.user_id :: delivery.trace⟩
        | .ok _ =>
          -- Update last_sent
          let tr := ReportEffect.queryPlots s.user_id :: delivery.trace ++
            [.updateLastSent s.schedule_id]
          match st.updateLastSent s.schedule_id with
          | .error e => ⟨.error e, tr⟩
          | .ok _ =>
            let more := reportLoop st today rest
            ⟨more.result, tr ++ more.trace⟩

/-- What a run of `processScheduledReports` leaves behind: what its promise
settles to, the error its `catch` logged (if any), and its effects. -/
structure ReportOutcome where
  result : Except JsError Unit
  caught : Option JsError
  trace : List ReportEffect

/-- `processScheduledReports()`. -/
def processScheduledReports (st : ReportStore) (today : String) : ReportOutcome :=
  let body : ReportRun :=
    match st.dueSchedules with
    | .error e => ⟨.error e, [.scan]⟩
    | .ok schedules =>
      let loop := reportLoop st today schedules
      ⟨loop.result, ReportEffect.scan :: loop.trace⟩
  match body.result with
  | .error e => ⟨.ok (), some e, body.trace⟩
  | .ok _ => ⟨.ok (), none, body.trace⟩

/-- The schedule ids of the `UPDATE ... SET last_sent` statements of a trace,
in order. -/
def updatedIds (trace : List ReportEffect) : List Nat :=
  trace.filterMap fun e =>
    match e with
    | .updateLastSent id => some id
    | _ => none

/-- The calls into `whatsappService` of a trace. -/
def reportCalls (trace : List ReportEffect) : List ReportEffect :=
  trace.filter fun e =>
    match e with
    | .call .. => true
    | _ => false

/-- A due alert created by botanist 1 for a farmer with all addresses. -/
def sampleDueAlert : DueAlert :=
  { alert_id := 7, message := "Water now", plant_name := "Tomato A1",
    created_by_botanist_id := some 1, whatsapp_number := some "9876543210",
    phone := some "9876543210", email := some "ravi@example.com" }

/-- A second due alert, without a creator. -/
def systemDueAlert : DueAlert :=
  { alert_id := 8, message := "Check soil", plant_name := "Corn B2",
    created_by_botanist_id := none, whatsapp_number := none,
    phone := none, email := none }

/-- A store whose due scan returns the two sample alerts and that accepts
every update. -/
def okSchedulerStore : SchedulerStore :=
  { dueAlerts := .ok [sampleDueAlert, systemDueAlert]
    markSent := fun _ => .ok () }

/-- A store whose due scan returns the two sample alerts and that rejects the
update of alert 7. -/
def failingSchedulerStore : SchedulerStore :=
  { dueAlerts := .ok [sampleDueAlert, systemDueAlert]
    markSent := fun id => if id = 7 then .error (.storeError "SQLITE_BUSY") else .ok () }

/-- Tables with one pending alert that fell due at time 100, created by
botanist 1 for the plant of a farmer with all addresses, and a second pending
alert, also due, for a plant without an owner. -/
def sampleDb : SchedulerDb :=
  { alerts :=
      [{ alert_id := 7, plant_id := 4, message := "Water now", status := some "pending",
         scheduled_time := some 100, created_by_botanist_id := some 1 },
       { alert_id := 9, plant_id := 5, message := "Prune", status := some "pending",
         scheduled_time := some 100, created_by_botanist_id := some 1 }]
    plants :=
      [{ plant_id := 4, plant_name := "Tomato A1", user_id := some 2 },
       { plant_id := 5, plant_name := "Corn B2", user_id := none }]
    users :=
      [{ user_id := 2, whatsapp_number := some "9876543210", phone := some "9876543210",
         email := some "ravi@example.com" }] }

/-- A weekly schedule of a farmer with a WhatsApp number, never sent. -/
def sampleSchedule : ReportSchedule :=
  { schedule_id := 3, user_id := 2, report_type := "weekly", format := some "csv",
    last_sent := none, full_name := "Ravi", whatsapp_number := some "9876543210",
    email := none }

/-- A monthly schedule of a user without a WhatsApp number. -/
def quietSchedule : ReportSchedule :=
  { schedule_id := 4, user_id := 5, report_type := "monthly", format := some "pdf",
    last_sent := none, full_name := "Mina", whatsapp_number := none, email := none }

/-- A report store with the given due schedules in which user 2 has two
plants and nobody else has any, and that accepts every statement. -/
def okReportStore (due : List ReportSchedule) : ReportStore :=
  { dueSchedules := .ok due
    plots := fun userId => if userId = 2 then .ok [11, 12] else .ok []
    updateLastSent := fun _ => .ok ()
    call := fun _ _ _ => .ok () }

/-! ## The evaluation of a reading by the caller -/

/-- A field of a reading as the caller of the scorer receives it: absent, a
value that is no number, or a number. -/
inductive RawField where
  | missing
  | malformed (text : String)
  | number (value : ℚ)
  deriving DecidableEq

/-- A reading as the caller of the scorer receives it. -/
structure RawReading where
  soil_moisture : RawField
  temperature : RawField
  soil_ph : RawField
  nutrient_n : RawField
  nutrient_p : RawField
  nutrient_k : RawField
  deriving DecidableEq

/-- The error values of the evaluation of a reading. -/
inductive EvalError where
  | validationError (field : String)
  deriving DecidableEq

/-- The number of a well-formed field. -/
def RawField.number? (f : RawField) : Option JsNum :=
  match f with
  | .number value => some (.fin value)
  | _ => none

/-- All six fields of the reading are present and numbers. -/
def RawReading.wellFormed (r : RawReading) : Bool :=
  r.soil_moisture.number?.isSome && r.temperature.number?.isSome &&
  r.soil_ph.number?.isSome && r.nutrient_n.number?.isSome &&
  r.nutrient_p.number?.isSome && r.nutrient_k.number?.isSome

/-- Modelled from the spec: the validation of a reading before scoring. The
caller of `calculateHealthScore` and `processAlertRules` (the route
`routes/healthLogs.js` that `server.js` mounts) is missing from the sources;
section 7 of the specification gives its error handling: "ValidationError
(malformed/missing reading fields, reject before scoring)". The fields are
checked in the order of the record and the first malformed or missing one is
reported. -/
def validateReading (r : RawReading) : Except EvalError SensorData :=
  match r.soil_moisture.number? with
  | none => .error (.validationError "soil_moisture")
  | some m =>
    match r.temperature.number? with
    | none => .error (.validationError "temperature")
    | some t =>
      match r.soil_ph.number? with
      | none => .error (.validationError "soil_ph")
      | some ph =>
        match r.nutrient_n.number? with
        | none => .error (.validationError "nutrient_n")
        | some n =>
          match r.nutrient_p.number? with
          | none => .error (.validationError "nutrient_p")
          | some p =>
            match r.nutrient_k.number? with
            | none => .error (.validationError "nutrient_k")
            | some k => .ok ⟨m, t, ph, n, p, k⟩

/-- Modelled from the spec: the operation `evaluateReading(reading) → score,
alertDrafts` of section 6 of the specification, whose code (the caller of the
scorer and the rule evaluator) is missing from the sources: a reading is
validated first, "a clear error for malformed input but a success response
for evaluated, zero alerts produced" (section 7); a reading that passes is
scored by `calculateHealthScore` and evaluated by the rule block of
`processAlertRules`. -/
def evaluateReading (r : RawReading) : Except EvalError (Int × List AlertDraft) :=
  match validateReading r with
  | .error e => .error e
  | .ok d => .ok (calculateHealthScore d, alertDrafts d)

/-- A raw reading with moisture 25 and no temperature. -/
def incompleteRawReading : RawReading :=
  ⟨.number 25, .missing, .number 6, .number 50, .number 50, .number 50⟩

/-! ## Sample collaborators and readings -/

/-- A store that holds the given plant/owner row for every plot and accepts
every statement, with a messaging service whose calls succeed. -/
def okEnv (row : PlantDetails) : Env :=
  { query := fun _ => .ok [row]
    run := fun _ => .ok ()
    call := fun _ _ _ => .ok () }

/-- A farmer with a WhatsApp number. -/
def sampleFarmer : PlantDetails :=
  { plant_name := "Tomato A1", whatsapp_number := some "9876543210",
    user_id := 2, full_name := "Ravi" }

/-- The reading `{moisture 25, temperature 40, pH 5.0, N 50, P 50, K 50}`. -/
def stressedReading : SensorData :=
  ⟨.fin 25, .fin 40, .fin 5, .fin 50, .fin 50, .fin 50⟩

/-- A reading whose six fields are all missing: each is `undefined`, which
`ToNumber` turns into `NaN`. -/
def missingReading : SensorData :=
  ⟨.nan, .nan, .nan, .nan, .nan, .nan⟩

/-- A reading with moisture 25 and every other field missing. -/
def partialReading : SensorData :=
  ⟨.fin 25, .nan, .nan, .nan, .nan, .nan⟩

/-- A reading inside every alert threshold. -/
def calmReading : SensorData :=
  ⟨.fin 30, .fin 38, .fin 7, .fin 50, .fin 50, .fin 50⟩

/-! ## Properties of the scorer -/

theorem lt_fin (q c : ℚ) : (JsNum.fin q).lt c = decide (q < c) := rfl
theorem gt_fin (q c : ℚ) : (JsNum.fin q).gt c = decide (c < q) := rfl
theorem ge_fin (q c : ℚ) : (JsNum.fin q).ge c = decide (c ≤ q) := rfl
theorem le_fin (q c : ℚ) : (JsNum.fin q).le c = decide (q ≤ c) := rfl

/-- The code's two-step test on one factor is the band deduction: for a
number `x` and bands `[wlo, whi] ⊇ [nlo, nhi]`. -/
theorem band_step (wlo whi nlo nhi : ℚ) (big small : Int) (x : JsNum)
    (hx : x.isNumeric = true) :
    (if x.lt wlo || x.gt whi then big
      else if x.lt nlo || x.gt nhi then small else 0)
      = bandDeduction wlo whi nlo nhi big small x := by
  cases x with
  | nan => simp [JsNum.isNumeric] at hx
  | posInf => simp [JsNum.lt, JsNum.gt, bandDeduction, JsNum.inBand]
  | negInf => simp [JsNum.lt, JsNum.gt, bandDeduction, JsNum.inBand]
  | fin q =>
    simp only [JsNum.lt, JsNum.gt, bandDeduction, JsNum.inBand, Bool.or_eq_true,
      decide_eq_true_eq, Bool.not_eq_true', decide_eq_false_iff_not, not_and, not_le]
    by_cases h1 : q < wlo
    · simp [h1, not_le.mpr h1]
    · by_cases h2 : whi < q
      · simp [h1, h2]
      · have h1' := not_lt.mp h1
        have h2' := not_lt.mp h2
        simp only [h1, h2, or_self, if_false, h1', h2', not_lt.mpr h1', not_lt.mpr h2',
          true_implies, if_false]
        by_cases h3 : q < nlo
        · simp [h3, not_le.mpr h3]
        · by_cases h4 : nhi < q
          · simp [h3, h4]
          · have h3' := not_lt.mp h3
            have h4' := not_lt.mp h4
            simp [h3, h4, h3', h4', not_lt.mpr h3', not_lt.mpr h4']

/-- The JavaScript test `x < c` is the order statement "below `c`". -/
theorem lt_eq_below (x : JsNum) (c : ℚ) : x.lt c = x.below c := by
  cases x <;> rfl

/-- The code of `calculateHealthScore` with the running `score` variable
replaced by the four amounts subtracted from 100. -/
theorem calculateHealthScore_unfold (d : SensorData) :
    calculateHealthScore d = max 0 (min 100 (100
      - (if d.soil_moisture.lt 30 || d.soil_moisture.gt 90 then 30
          else if d.soil_moisture.lt 40 || d.soil_moisture.gt 80 then 15 else 0)
      - (if d.temperature.lt 5 || d.temperature.gt 38 then 20
          else if d.temperature.lt 15 || d.temperature.gt 32 then 10 else 0)
      - (if d.soil_ph.lt 5 || d.soil_ph.gt 8 then 20
          else if d.soil_ph.lt 6 || d.soil_ph.gt 7 then 10 else 0)
      - (if d.nutrient_n.lt 10 || d.nutrient_p.lt 10 || d.nutrient_k.lt 10 then 20
          else 0))) := by
  unfold calculateHealthScore
  rw [Bool.or_comm (d.temperature.gt 38), Bool.or_comm (d.temperature.gt 32)]
  simp only []
  split_ifs <;> rfl

/-- A band deduction is one of `0`, `small`, `big`. -/
theorem bandDeduction_cases (wlo whi nlo nhi : ℚ) (big small : Int) (x : JsNum) :
    bandDeduction wlo whi nlo nhi big small x = 0 ∨
    bandDeduction wlo whi nlo nhi big small x = small ∨
    bandDeduction wlo whi nlo nhi big small x = big := by
  unfold bandDeduction
  split_ifs <;> simp

/-- The nutrient deduction is `0` or `20`. -/
theorem nutrientDeduction_cases (n p k : JsNum) :
    nutrientDeduction n p k = 0 ∨ nutrientDeduction n p k = 20 := by
  unfold nutrientDeduction
  split_ifs <;> simp

/-- The clamped score is a value between 0 and 100 for any reading. -/
theorem score_bounds (d : SensorData) :
    0 ≤ calculateHealthScore d ∧ calculateHealthScore d ≤ 100 := by
  rw [calculateHealthScore_unfold]
  constructor
  · exact le_max_left _ _
  · exact max_le (by norm_num) (min_le_left _ _)

/-- C1: for every reading whose six fields are numbers, `calculateHealthScore`
equals 100 minus the sum of the four deductions worded in the specification:
moisture 30 outside [30,90] else 15 outside [40,80]; temperature 20 outside
[5,38] else 10 outside [15,32]; pH 20 outside [5,8] else 10 outside [6,7];
nutrients 20 if any of N, P, K is below 10. -/
theorem calculateHealthScore_eq_deductions (d : SensorData) (h : d.numeric = true) :
    calculateHealthScore d =
      100 - (moistureDeduction d.soil_moisture + temperatureDeduction d.temperature
        + phDeduction d.soil_ph
        + nutrientDeduction d.nutrient_n d.nutrient_p d.nutrient_k) := by
  simp only [SensorData.numeric, Bool.and_eq_true] at h
  obtain ⟨⟨⟨⟨⟨hm, ht⟩, hp⟩, _⟩, _⟩, _⟩ := h
  rw [calculateHealthScore_unfold, band_step 30 90 40 80 30 15 _ hm,
    band_step 5 38 15 32 20 10 _ ht, band_step 5 8 6 7 20 10 _ hp]
  have hn : (if d.nutrient_n.lt 10 || d.nutrient_p.lt 10 || d.nutrient_k.lt 10 then (20 : Int)
      else 0) = nutrientDeduction d.nutrient_n d.nutrient_p d.nutrient_k := by
    simp only [lt_eq_below, nutrientDeduction]
  rw [hn]
  unfold moistureDeduction temperatureDeduction phDeduction
  rcases bandDeduction_cases 30 90 40 80 30 15 d.soil_moisture with a | a | a <;>
  rcases bandDeduction_cases 5 38 15 32 20 10 d.temperature with b | b | b <;>
  rcases bandDeduction_cases 5 8 6 7 20 10 d.soil_ph with c | c | c <;>
  rcases nutrientDeduction_cases d.nutrient_n d.nutrient_p d.nutrient_k with e | e <;>
  rw [a, b, c, e] <;> decide

/-- Instance of C1 at moisture 35, temperature 40, pH 6.5, N 5, P 50, K 50:
the score is 100 - (15 + 20 + 0 + 20) = 45. -/
theorem calculateHealthScore_eq_deductions_witness :
    (SensorData.mk (.fin 35) (.fin 40) (.fin 6.5) (.fin 5) (.fin 50) (.fin 50)).numeric = true ∧
    calculateHealthScore (SensorData.mk (.fin 35) (.fin 40) (.fin 6.5) (.fin 5) (.fin 50) (.fin 50)) =
      100 - (moistureDeduction (.fin 35) + temperatureDeduction (.fin 40) + phDeduction (.fin 6.5)
        + nutrientDeduction (.fin 5) (.fin 50) (.fin 50)) :=
  ⟨rfl, calculateHealthScore_eq_deductions _ rfl⟩

/-- C2: for every reading, whatever its six fields hold, the value returned by
`calculateHealthScore` lies in the closed range [0,100]. -/
theorem calculateHealthScore_range (d : SensorData) :
    0 ≤ calculateHealthScore d ∧ calculateHealthScore d ≤ 100 :=
  score_bounds d

/-- C3: a reading with moisture in [40,80], temperature in [15,32], pH in
[6.0,7.0] and N, P, K all at least 10 (endpoints included) scores exactly
100. -/
theorem calculateHealthScore_ideal (m t ph n p k : ℚ)
    (hm : 40 ≤ m ∧ m ≤ 80) (ht : 15 ≤ t ∧ t ≤ 32) (hph : 6 ≤ ph ∧ ph ≤ 7)
    (hn : 10 ≤ n) (hp : 10 ≤ p) (hk : 10 ≤ k) :
    calculateHealthScore ⟨.fin m, .fin t, .fin ph, .fin n, .fin p, .fin k⟩ = 100 := by
  have e1 : ¬ m < 30 := by linarith [hm.1]
  have e2 : ¬ 90 < m := by linarith [hm.2]
  have e3 : ¬ m < 40 := by linarith [hm.1]
  have e4 : ¬ 80 < m := by linarith [hm.2]
  have e5 : ¬ t < 5 := by linarith [ht.1]
  have e6 : ¬ 38 < t := by linarith [ht.2]
  have e7 : ¬ t < 15 := by linarith [ht.1]
  have e8 : ¬ 32 < t := by linarith [ht.2]
  have e9 : ¬ ph < 5 := by linarith [hph.1]
  have e10 : ¬ 8 < ph := by linarith [hph.2]
  have e11 : ¬ ph < 6 := by linarith [hph.1]
  have e12 : ¬ 7 < ph := by linarith [hph.2]
  have e13 : ¬ n < 10 := by linarith
  have e14 : ¬ p < 10 := by linarith
  have e15 : ¬ k < 10 := by linarith
  rw [calculateHealthScore_unfold]
  simp only [lt_fin, gt_fin, e1, e2, e3, e4, e5, e6, e7, e8, e9, e10, e11, e12, e13, e14, e15,
    decide_False, Bool.or_self, Bool.false_eq_true, if_false]
  decide

/-- Instance of C3 at the band endpoints: moisture 40, temperature 32, pH 6,
N = P = K = 10. -/
theorem calculateHealthScore_ideal_witness :
    calculateHealthScore ⟨.fin 40, .fin 32, .fin 6, .fin 10, .fin 10, .fin 10⟩ = 100 :=
  calculateHealthScore_ideal 40 32 6 10 10 10 (by decide) (by decide) (by decide)
    (by decide) (by decide) (by decide)

/-- C4: for every finite score `s`, `getHealthStatus` labels it Good exactly
when `s >= 80`, Moderate exactly when `50 <= s < 80`, Critical exactly when
`s < 50`; the three conditions exclude each other and one of them holds, so
exactly one label applies. -/
theorem getHealthStatus_label (s : ℚ) :
    ((getHealthStatus (.fin s)).label = "Good" ↔ 80 ≤ s) ∧
    ((getHealthStatus (.fin s)).label = "Moderate" ↔ 50 ≤ s ∧ s < 80) ∧
    ((getHealthStatus (.fin s)).label = "Critical" ↔ s < 50) ∧
    ((getHealthStatus (.fin s)).label = "Good" ∨ (getHealthStatus (.fin s)).label = "Moderate" ∨
      (getHealthStatus (.fin s)).label = "Critical") := by
  unfold getHealthStatus
  simp only [ge_fin, decide_eq_true_eq]
  by_cases h1 : 80 ≤ s
  · have h2 : 50 ≤ s := by linarith
    have h3 : ¬ s < 80 := by linarith
    have h4 : ¬ s < 50 := by linarith
    simp [h1, h2, h3, h4]
  · by_cases h2 : 50 ≤ s
    · have h3 : s < 80 := by linarith
      have h4 : ¬ s < 50 := by linarith
      simp [h1, h2, h3, h4]
    · have h4 : s < 50 := by linarith
      simp [h1, h2, h4]

/-! ## Properties of the rule evaluator -/

/-- The `alerts` array is the concatenation of three optional singletons, in
rule declaration order. -/
theorem alertDrafts_eq (d : SensorData) :
    alertDrafts d =
      (if d.soil_moisture.lt 30 then [moistureAlert] else []) ++
      ((if d.temperature.gt 38 then [temperatureAlert] else []) ++
       (if d.soil_ph.lt 5.5 || d.soil_ph.gt 7.5 then [phAlert] else [])) := by
  unfold alertDrafts
  cases d.soil_moisture.lt 30 <;> cases d.temperature.gt 38 <;>
    cases (d.soil_ph.lt 5.5 || d.soil_ph.gt 7.5) <;> rfl

/-- Membership in the `alerts` array. -/
theorem mem_alertDrafts (d : SensorData) (a : AlertDraft) :
    a ∈ alertDrafts d ↔
      (d.soil_moisture.lt 30 = true ∧ a = moistureAlert) ∨
      (d.temperature.gt 38 = true ∧ a = temperatureAlert) ∨
      ((d.soil_ph.lt 5.5 || d.soil_ph.gt 7.5) = true ∧ a = phAlert) := by
  rw [alertDrafts_eq]
  cases d.soil_moisture.lt 30 <;> cases d.temperature.gt 38 <;>
    cases (d.soil_ph.lt 5.5 || d.soil_ph.gt 7.5) <;> simp

/-- C5: for every reading, the draft list contains a draft of type
`irrigation` with priority `high` if and only if `soil_moisture < 30`; a
reading with moisture 25 has it and a reading with moisture exactly 30 does
not. -/
theorem irrigation_draft_iff :
    (∀ d : SensorData,
      (∃ a ∈ alertDrafts d, a.type = "irrigation" ∧ a.priority = "high") ↔
        d.soil_moisture.lt 30 = true) ∧
    (∀ t ph n p k : JsNum,
      ∃ a ∈ alertDrafts ⟨.fin 25, t, ph, n, p, k⟩, a.type = "irrigation" ∧ a.priority = "high") ∧
    (∀ t ph n p k : JsNum,
      ¬ ∃ a ∈ alertDrafts ⟨.fin 30, t, ph, n, p, k⟩,
        a.type = "irrigation" ∧ a.priority = "high") := by
  have key : ∀ d : SensorData,
      (∃ a ∈ alertDrafts d, a.type = "irrigation" ∧ a.priority = "high") ↔
        d.soil_moisture.lt 30 = true := by
    intro d
    constructor
    · rintro ⟨a, ha, hty, _⟩
      rcases (mem_alertDrafts d a).mp ha with ⟨h, _⟩ | ⟨_, rfl⟩ | ⟨_, rfl⟩
      · exact h
      · exact absurd hty (by decide)
      · exact absurd hty (by decide)
    · intro h
      exact ⟨moistureAlert, (mem_alertDrafts d _).mpr (Or.inl ⟨h, rfl⟩), rfl, rfl⟩
  refine ⟨key, ?_, ?_⟩
  · intro t ph n p k
    exact (key _).mpr (by simp [JsNum.lt]; norm_num)
  · intro t ph n p k h
    have := (key _).mp h
    simp [JsNum.lt] at this

/-- C6, the claim as worded fails: at temperature 40 the draft list holds no
draft whose type is `heat-stress`. -/
theorem heat_stress_type_absent :
    ¬ ∃ a ∈ alertDrafts ⟨.fin 50, .fin 40, .fin 7, .fin 50, .fin 50, .fin 50⟩,
      a.type = "heat-stress" ∧ a.priority = "critical" := by
  rintro ⟨a, ha, hty, _⟩
  rcases (mem_alertDrafts _ a).mp ha with ⟨_, rfl⟩ | ⟨_, rfl⟩ | ⟨_, rfl⟩ <;>
    exact absurd hty (by decide)

/-- C6, amended: for every reading, the draft list contains a draft of type
`weather` with priority `critical` (the heat stress alert) if and only if
`temperature > 38`; a reading with temperature 40 has it and a reading with
temperature exactly 38 does not. -/
theorem weather_draft_iff :
    (∀ d : SensorData,
      (∃ a ∈ alertDrafts d, a.type = "weather" ∧ a.priority = "critical") ↔
        d.temperature.gt 38 = true) ∧
    (∀ m ph n p k : JsNum,
      ∃ a ∈ alertDrafts ⟨m, .fin 40, ph, n, p, k⟩,
        a = temperatureAlert ∧ a.type = "weather" ∧ a.priority = "critical") ∧
    (∀ m ph n p k : JsNum,
      ¬ ∃ a ∈ alertDrafts ⟨m, .fin 38, ph, n, p, k⟩,
        a.type = "weather" ∧ a.priority = "critical") := by
  have key : ∀ d : SensorData,
      (∃ a ∈ alertDrafts d, a.type = "weather" ∧ a.priority = "critical") ↔
        d.temperature.gt 38 = true := by
    intro d
    constructor
    · rintro ⟨a, ha, hty, _⟩
      rcases (mem_alertDrafts d a).mp ha with ⟨_, rfl⟩ | ⟨h, _⟩ | ⟨_, rfl⟩
      · exact absurd hty (by decide)
      · exact h
      · exact absurd hty (by decide)
    · intro h
      exact ⟨temperatureAlert, (mem_alertDrafts d _).mpr (Or.inr (Or.inl ⟨h, rfl⟩)), rfl, rfl⟩
  refine ⟨key, ?_, ?_⟩
  · intro m ph n p k
    refine ⟨temperatureAlert, (mem_alertDrafts _ _).mpr (Or.inr (Or.inl ⟨?_, rfl⟩)), rfl, rfl, rfl⟩
    simp [JsNum.gt]; norm_num
  · intro m ph n p k h
    have := (key _).mp h
    simp [JsNum.gt] at this

/-- C7, the claim as worded fails: at pH 5.0 the draft list holds no draft
whose type is `soil-correction`. -/
theorem soil_correction_type_absent :
    ¬ ∃ a ∈ alertDrafts ⟨.fin 50, .fin 25, .fin 5, .fin 50, .fin 50, .fin 50⟩,
      a.type = "soil-correction" ∧ a.priority = "medium" := by
  rintro ⟨a, ha, hty, _⟩
  rcases (mem_alertDrafts _ a).mp ha with ⟨_, rfl⟩ | ⟨_, rfl⟩ | ⟨_, rfl⟩ <;>
    exact absurd hty (by decide)

/-- C7, amended: for every reading, the draft list contains a draft of type
`soil` with priority `medium` (the soil correction alert) if and only if
`soil_ph < 5.5` or `soil_ph > 7.5`; a reading with pH 5.0 has it, and no
reading with a pH in [5.5,7.5] does. -/
theorem soil_draft_iff :
    (∀ d : SensorData,
      (∃ a ∈ alertDrafts d, a.type = "soil" ∧ a.priority = "medium") ↔
        (d.soil_ph.lt 5.5 = true ∨ d.soil_ph.gt 7.5 = true)) ∧
    (∀ m t n p k : JsNum,
      ∃ a ∈ alertDrafts ⟨m, t, .fin 5, n, p, k⟩,
        a = phAlert ∧ a.type = "soil" ∧ a.priority = "medium") ∧
    (∀ (m t n p k : JsNum) (q : ℚ), 5.5 ≤ q → q ≤ 7.5 →
      ¬ ∃ a ∈ alertDrafts ⟨m, t, .fin q, n, p, k⟩, a.type = "soil" ∧ a.priority = "medium") := by
  have key : ∀ d : SensorData,
      (∃ a ∈ alertDrafts d, a.type = "soil" ∧ a.priority = "medium") ↔
        (d.soil_ph.lt 5.5 = true ∨ d.soil_ph.gt 7.5 = true) := by
    intro d
    rw [← Bool.or_eq_true]
    constructor
    · rintro ⟨a, ha, hty, _⟩
      rcases (mem_alertDrafts d a).mp ha with ⟨_, rfl⟩ | ⟨_, rfl⟩ | ⟨h, _⟩
      · exact absurd hty (by decide)
      · exact absurd hty (by decide)
      · exact h
    · intro h
      exact ⟨phAlert, (mem_alertDrafts d _).mpr (Or.inr (Or.inr ⟨h, rfl⟩)), rfl, rfl⟩
  refine ⟨key, ?_, ?_⟩
  · intro m t n p k
    refine ⟨phAlert, (mem_alertDrafts _ _).mpr (Or.inr (Or.inr ⟨?_, rfl⟩)), rfl, rfl, rfl⟩
    simp [JsNum.lt]; norm_num
  · intro m t n p k q h1 h2 h
    rcases (key _).mp h with h3 | h3
    · simp only [lt_fin, decide_eq_true_eq] at h3
      linarith
    · simp only [gt_fin, decide_eq_true_eq] at h3
      linarith

/-- Instance of the amended C7 at pH 6: no draft of type `soil`. -/
theorem soil_draft_iff_witness :
    ¬ ∃ a ∈ alertDrafts ⟨.fin 50, .fin 25, .fin 6, .fin 50, .fin 50, .fin 50⟩,
      a.type = "soil" ∧ a.priority = "medium" :=
  soil_draft_iff.2.2 _ _ _ _ _ 6 (by norm_num) (by norm_num)

/-- C8: for every reading, the draft sequence is the subsequence of
[moisture draft, temperature draft, pH draft] selected by the three threshold
predicates, in declaration order; each draft is present exactly when its own
predicate holds, the number of drafts is the number of predicates satisfied,
and no draft occurs twice. -/
theorem alertDrafts_selected (d : SensorData) :
    alertDrafts d =
      (([(d.soil_moisture.lt 30, moistureAlert), (d.temperature.gt 38, temperatureAlert),
          (d.soil_ph.lt 5.5 || d.soil_ph.gt 7.5, phAlert)].filter fun r => r.1).map
        fun r => r.2) ∧
    List.Sublist (alertDrafts d) [moistureAlert, temperatureAlert, phAlert] ∧
    (moistureAlert ∈ alertDrafts d ↔ d.soil_moisture.lt 30 = true) ∧
    (temperatureAlert ∈ alertDrafts d ↔ d.temperature.gt 38 = true) ∧
    (phAlert ∈ alertDrafts d ↔ (d.soil_ph.lt 5.5 || d.soil_ph.gt 7.5) = true) ∧
    (alertDrafts d).length =
      (d.soil_moisture.lt 30).toNat + (d.temperature.gt 38).toNat +
        (d.soil_ph.lt 5.5 || d.soil_ph.gt 7.5).toNat ∧
    (alertDrafts d).length ≤ 3 ∧
    (alertDrafts d).Nodup := by
  rw [alertDrafts_eq]
  cases d.soil_moisture.lt 30 <;> cases d.temperature.gt 38 <;>
    cases (d.soil_ph.lt 5.5 || d.soil_ph.gt 7.5) <;> decide

/-- A reading with no draft makes `processAlertRules` return at once. -/
theorem processAlertRules_of_no_drafts (env : Env) (plantId : Nat) (d : SensorData)
    (h : alertDrafts d = []) :
    (processAlertRules env plantId d).trace = [] ∧
    (processAlertRules env plantId d).completed = true := by
  unfold processAlertRules
  simp [h, Outcome.completed]

/-- C9: for every reading that satisfies none of the three thresholds
(moisture >= 30, temperature <= 38, pH in [5.5,7.5]), with any store and any
messaging service, `processAlertRules` completes without error and performs
no effect at all: no store read, no alert insert, no chat message insert and
no send attempt. -/
theorem processAlertRules_no_threshold (env : Env) (plantId : Nat) (d : SensorData)
    (hm : d.soil_moisture.ge 30 = true) (ht : d.temperature.le 38 = true)
    (hlo : d.soil_ph.ge 5.5 = true) (hhi : d.soil_ph.le 7.5 = true) :
    (processAlertRules env plantId d).completed = true ∧
    (processAlertRules env plantId d).trace = [] ∧
    (processAlertRules env plantId d).alertInserts = [] ∧
    (processAlertRules env plantId d).chatInserts = [] ∧
    (processAlertRules env plantId d).sendAttempts = [] := by
  have h1 : d.soil_moisture.lt 30 = false := by
    cases hx : d.soil_moisture <;> simp_all [JsNum.ge, JsNum.lt]
  have h2 : d.temperature.gt 38 = false := by
    cases hx : d.temperature <;> simp_all [JsNum.le, JsNum.gt]
  have h3 : d.soil_ph.lt 5.5 = false := by
    cases hx : d.soil_ph <;> simp_all [JsNum.ge, JsNum.lt]
  have h4 : d.soil_ph.gt 7.5 = false := by
    cases hx : d.soil_ph <;> simp_all [JsNum.le, JsNum.gt]
  have hd : alertDrafts d = [] := by
    rw [alertDrafts_eq, h1, h2, h3, h4]; rfl
  obtain ⟨htr, hc⟩ := processAlertRules_of_no_drafts env plantId d hd
  refine ⟨hc, htr, ?_, ?_, ?_⟩ <;>
    simp [Outcome.alertInserts, Outcome.chatInserts, Outcome.sendAttempts, htr]

/-- Instance of C9 at the threshold values themselves: moisture 30,
temperature 38, pH 7, on a plot whose farmer has a WhatsApp number. -/
theorem processAlertRules_no_threshold_witness :
    (processAlertRules (okEnv sampleFarmer) 1 calmReading).completed = true ∧
    (processAlertRules (okEnv sampleFarmer) 1 calmReading).trace = [] ∧
    (processAlertRules (okEnv sampleFarmer) 1 calmReading).alertInserts = [] ∧
    (processAlertRules (okEnv sampleFarmer) 1 calmReading).chatInserts = [] ∧
    (processAlertRules (okEnv sampleFarmer) 1 calmReading).sendAttempts = [] :=
  processAlertRules_no_threshold (okEnv sampleFarmer) 1 calmReading
    (by simp [calmReading, JsNum.ge]) (by simp [calmReading, JsNum.le])
    (by simp [calmReading, JsNum.ge]; norm_num) (by simp [calmReading, JsNum.le]; norm_num)

/-- The module `whatsappService` exports no `sendWhatsAppMessage`: the binding
of `alertEngine.js` is `undefined`. -/
theorem sendWhatsAppMessage_undefined : sendWhatsAppMessage = none := by decide

/-- The three drafts of the stressed reading. -/
theorem alertDrafts_stressedReading :
    alertDrafts stressedReading = [moistureAlert, temperatureAlert, phAlert] := by
  rw [alertDrafts_eq]
  simp [stressedReading, JsNum.lt, JsNum.gt]
  norm_num

/-- C10, what the code does: for the reading `{moisture 25, temperature 40,
pH 5.0, N 50, P 50, K 50}` on an existing plot whose farmer has a WhatsApp
number, with a store that accepts every statement, `processAlertRules` builds
3 drafts, inserts the first alert row, then fails with a `TypeError` on the
call of the undefined `sendWhatsAppMessage`: 1 alert row, no dispatch attempt,
no chat message, and the promise rejects. -/
theorem processAlertRules_stressed_rejects (env : Env) (plantId : Nat) (row : PlantDetails)
    (rest : List PlantDetails)
    (hq : env.query plantId = .ok (row :: rest))
    (hrun : ∀ stmt, env.run stmt = .ok ())
    (hnum : truthy row.whatsapp_number = true) :
    (alertDrafts stressedReading).length = 3 ∧
    (processAlertRules env plantId stressedReading).trace =
      [.store (.selectPlantOwner plantId),
       .store (.insertAlert plantId moistureAlert.message "irrigation" "high" "sent")] ∧
    (processAlertRules env plantId stressedReading).alertInserts.length = 1 ∧
    (processAlertRules env plantId stressedReading).sendAttempts.length = 0 ∧
    (processAlertRules env plantId stressedReading).chatInserts.length = 0 ∧
    (processAlertRules env plantId stressedReading).completed = false := by
  have htr : processAlertRules env plantId stressedReading =
      ⟨[.store (.selectPlantOwner plantId),
        .store (.insertAlert plantId moistureAlert.message "irrigation" "high" "sent")],
        .error (.typeError "sendWhatsAppMessage is not a function")⟩ := by
    unfold processAlertRules
    simp only [alertDrafts_stressedReading, hq]
    simp [alertLoop, hrun, hnum, sendWhatsAppMessage_undefined, moistureAlert]
  rw [htr, alertDrafts_stressedReading]
  simp [Outcome.alertInserts, Outcome.sendAttempts, Outcome.chatInserts, Outcome.completed]

/-- Instance of C10 for the sample farmer on plot 1. -/
theorem processAlertRules_stressed_rejects_witness :
    (alertDrafts stressedReading).length = 3 ∧
    (processAlertRules (okEnv sampleFarmer) 1 stressedReading).trace =
      [.store (.selectPlantOwner 1),
       .store (.insertAlert 1 moistureAlert.message "irrigation" "high" "sent")] ∧
    (processAlertRules (okEnv sampleFarmer) 1 stressedReading).alertInserts.length = 1 ∧
    (processAlertRules (okEnv sampleFarmer) 1 stressedReading).sendAttempts.length = 0 ∧
    (processAlertRules (okEnv sampleFarmer) 1 stressedReading).chatInserts.length = 0 ∧
    (processAlertRules (okEnv sampleFarmer) 1 stressedReading).completed = false :=
  processAlertRules_stressed_rejects (okEnv sampleFarmer) 1 sampleFarmer [] rfl
    (fun _ => rfl) (by decide)

/-! ## Properties of the messaging session manager -/

/-- A string of digits does not end with the chat suffix. -/
theorem not_endsWith_of_digits (l : List Char) (h : ∀ c ∈ l, c.isDigit = true) :
    endsWith ⟨l⟩ "@c.us" = false := by
  rw [Bool.eq_false_iff]
  intro hs
  unfold endsWith at hs
  rw [List.isSuffixOf_iff_suffix] at hs
  have hmem : '@' ∈ l := hs.subset (by decide)
  exact absurd (h _ hmem) (by decide)

/-- The chat id is the digit string, with the country code in front when it
has exactly 10 digits, followed by the suffix. -/
theorem formatNumber_eq (dest : String) :
    formatNumber dest =
      (if (stripNonDigits dest).length = 10 then "91" ++ stripNonDigits dest
        else stripNonDigits dest) ++ "@c.us" := by
  have hd : ∀ c ∈ (stripNonDigits dest).data, c.isDigit = true := by
    intro c hc
    simp only [stripNonDigits, List.mem_filter] at hc
    exact hc.2
  unfold formatNumber
  by_cases h : (stripNonDigits dest).length = 10
  · have h2 : endsWith ("91" ++ stripNonDigits dest) "@c.us" = false := by
      apply not_endsWith_of_digits
      intro c hc
      simp only [String.data_append, List.mem_append] at hc
      rcases hc with hc | hc
      · have : c = '9' ∨ c = '1' := by simpa using hc
        rcases this with rfl | rfl <;> decide
      · exact hd c hc
    simp [h, h2]
  · have h2 : endsWith (stripNonDigits dest) "@c.us" = false :=
      not_endsWith_of_digits _ hd
    simp [h, h2]

/-- For a Connected session and a string destination, `sendFromBotanist`
probes the chat id and, unless the probe throws, sends to the same chat id;
the result is `true` exactly when the send went through. -/
theorem sendFromBotanist_connected (tp : Transport) (s : WaState) (id : Nat)
    (cd : ClientData) (dest body : String)
    (h : s.get id = some cd) (hr : cd.isReady = true) :
    sendFromBotanist tp s id (some dest) body =
      match tp.isRegisteredUser cd.client (formatNumber dest) with
      | .error _ => ⟨.ok false, [.isRegisteredUser cd.client (formatNumber dest)]⟩
      | .ok _ =>
        match tp.sendMessage cd.client (formatNumber dest) body with
        | .error _ => ⟨.ok false, [.isRegisteredUser cd.client (formatNumber dest),
            .sendMessage cd.client (formatNumber dest) body]⟩
        | .ok _ => ⟨.ok true, [.isRegisteredUser cd.client (formatNumber dest),
            .sendMessage cd.client (formatNumber dest) body]⟩ := by
  unfold sendFromBotanist sendAttempt
  simp only [h, hr]
  cases tp.isRegisteredUser cd.client (formatNumber dest) with
  | error e => simp
  | ok r =>
    cases tp.sendMessage cd.client (formatNumber dest) body with
    | error e => simp
    | ok u => simp

/-- Without a session entry nothing is sent. -/
theorem sendFromBotanist_no_entry (tp : Transport) (s : WaState) (id : Nat)
    (dest : Option String) (body : String) (h : s.get id = none) :
    sendFromBotanist tp s id dest body = ⟨.ok false, []⟩ := by
  unfold sendFromBotanist
  simp [h]

/-- With a session that is not Connected nothing is sent. -/
theorem sendFromBotanist_not_ready (tp : Transport) (s : WaState) (id : Nat)
    (cd : ClientData) (dest : Option String) (body : String)
    (h : s.get id = some cd) (hr : cd.isReady = false) :
    sendFromBotanist tp s id dest body = ⟨.ok false, []⟩ := by
  unfold sendFromBotanist
  simp [h, hr]

/-- With a `null` destination the `try` block throws at `to.replace` and the
`catch` returns false before any transport call. -/
theorem sendFromBotanist_null (tp : Transport) (s : WaState) (id : Nat)
    (cd : ClientData) (body : String)
    (h : s.get id = some cd) (hr : cd.isReady = true) :
    sendFromBotanist tp s id none body = ⟨.ok false, []⟩ := by
  unfold sendFromBotanist sendAttempt
  simp [h, hr]

/-- C11: for every operator id, address and message, if the operator has no
session entry or its session is not Connected (`isReady` false),
`sendFromBotanist` returns false and calls neither `isRegisteredUser` nor
`sendMessage` (it makes no transport call at all). -/
theorem sendFromBotanist_not_connected (tp : Transport) (s : WaState) (id : Nat)
    (dest : Option String) (body : String)
    (h : s.get id = none ∨ ∃ cd, s.get id = some cd ∧ cd.isReady = false) :
    (sendFromBotanist tp s id dest body).result = .ok false ∧
    (sendFromBotanist tp s id dest body).calls = [] := by
  rcases h with h | ⟨cd, h, hr⟩
  · rw [sendFromBotanist_no_entry tp s id dest body h]
    exact ⟨rfl, rfl⟩
  · rw [sendFromBotanist_not_ready tp s id cd dest body h hr]
    exact ⟨rfl, rfl⟩

/-- Instance of C11: botanist 1 started pairing (transport object 0 exists,
`isReady` false) and the transport would accept every call. -/
theorem sendFromBotanist_not_connected_witness :
    (sendFromBotanist okTransport ⟨[(1, ⟨0, false, some "img", some "code"⟩)], 1⟩ 1
      (some "9876543210") "hello").result = .ok false ∧
    (sendFromBotanist okTransport ⟨[(1, ⟨0, false, some "img", some "code"⟩)], 1⟩ 1
      (some "9876543210") "hello").calls = [] :=
  sendFromBotanist_not_connected okTransport _ 1 _ _ (Or.inr ⟨_, rfl, rfl⟩)

/-- C12: for every destination address whose digits (after stripping all
non-digit characters) number exactly 10, the chat id is "91" followed by those
digits followed by "@c.us", and for a Connected session this chat id is what
`sendFromBotanist` passes to the transport: first to `isRegisteredUser`, and
every transport call it makes carries it. -/
theorem sendFromBotanist_ten_digits (tp : Transport) (s : WaState) (id : Nat)
    (cd : ClientData) (dest body : String)
    (h : s.get id = some cd) (hr : cd.isReady = true)
    (hlen : (stripNonDigits dest).length = 10) :
    formatNumber dest = "91" ++ stripNonDigits dest ++ "@c.us" ∧
    (sendFromBotanist tp s id (some dest) body).calls.head? =
      some (.isRegisteredUser cd.client ("91" ++ stripNonDigits dest ++ "@c.us")) ∧
    ∀ call ∈ (sendFromBotanist tp s id (some dest) body).calls,
      call = .isRegisteredUser cd.client ("91" ++ stripNonDigits dest ++ "@c.us") ∨
      call = .sendMessage cd.client ("91" ++ stripNonDigits dest ++ "@c.us") body := by
  have hf : formatNumber dest = "91" ++ stripNonDigits dest ++ "@c.us" := by
    rw [formatNumber_eq, if_pos hlen]
  rw [sendFromBotanist_connected tp s id cd dest body h hr, hf]
  refine ⟨rfl, ?_, ?_⟩
  · cases tp.isRegisteredUser cd.client ("91" ++ stripNonDigits dest ++ "@c.us") with
    | error e => rfl
    | ok r =>
      cases tp.sendMessage cd.client ("91" ++ stripNonDigits dest ++ "@c.us") body <;> rfl
  · cases tp.isRegisteredUser cd.client ("91" ++ stripNonDigits dest ++ "@c.us") with
    | error e => simp
    | ok r =>
      cases tp.sendMessage cd.client ("91" ++ stripNonDigits dest ++ "@c.us") body <;> simp

/-- Instance of C12 for the address "98765 43210". -/
theorem sendFromBotanist_ten_digits_witness :
    formatNumber "98765 43210" = "91" ++ stripNonDigits "98765 43210" ++ "@c.us" ∧
    (sendFromBotanist okTransport connectedState 1 (some "98765 43210") "hello").calls.head? =
      some (.isRegisteredUser 0 ("91" ++ stripNonDigits "98765 43210" ++ "@c.us")) ∧
    ∀ call ∈ (sendFromBotanist okTransport connectedState 1 (some "98765 43210") "hello").calls,
      call = .isRegisteredUser 0 ("91" ++ stripNonDigits "98765 43210" ++ "@c.us") ∨
      call = .sendMessage 0 ("91" ++ stripNonDigits "98765 43210" ++ "@c.us") "hello" :=
  sendFromBotanist_ten_digits okTransport connectedState 1 ⟨0, true, none, none⟩
    "98765 43210" "hello" rfl rfl (by decide)

/-- C13, the claim as worded fails: the 10-digit address "9123456789" begins
with 91, and `sendFromBotanist` puts a second 91 in front of it: it dispatches
to "919123456789@c.us", not to "9123456789@c.us". -/
theorem country_code_prefixed_twice :
    stripNonDigits "9123456789" = "9123456789" ∧
    (sendFromBotanist okTransport connectedState 1 (some "9123456789") "hello").calls =
      [.isRegisteredUser 0 "919123456789@c.us", .sendMessage 0 "919123456789@c.us" "hello"] ∧
    formatNumber "9123456789" ≠ stripNonDigits "9123456789" ++ "@c.us" := by
  decide

/-- C13, amended: for every destination address whose digit string begins
with 91 and does not have exactly 10 digits, the digit string is left
unchanged (no second country code) and a Connected session dispatches to
exactly those digits followed by "@c.us". -/
theorem sendFromBotanist_prefixed (tp : Transport) (s : WaState) (id : Nat)
    (cd : ClientData) (dest body : String)
    (h : s.get id = some cd) (hr : cd.isReady = true)
    (hpre : ("91".data).isPrefixOf (stripNonDigits dest).data = true)
    (hlen : (stripNonDigits dest).length ≠ 10) :
    formatNumber dest = stripNonDigits dest ++ "@c.us" ∧
    ("91".data).isPrefixOf (formatNumber dest).data = true ∧
    (sendFromBotanist tp s id (some dest) body).calls.head? =
      some (.isRegisteredUser cd.client (stripNonDigits dest ++ "@c.us")) ∧
    ∀ call ∈ (sendFromBotanist tp s id (some dest) body).calls,
      call = .isRegisteredUser cd.client (stripNonDigits dest ++ "@c.us") ∨
      call = .sendMessage cd.client (stripNonDigits dest ++ "@c.us") body := by
  have hf : formatNumber dest = stripNonDigits dest ++ "@c.us" := by
    rw [formatNumber_eq, if_neg hlen]
  rw [sendFromBotanist_connected tp s id cd dest body h hr, hf]
  refine ⟨rfl, ?_, ?_, ?_⟩
  · rw [List.isPrefixOf_iff_prefix] at hpre ⊢
    rw [String.data_append]
    exact hpre.trans (List.prefix_append _ _)
  · cases tp.isRegisteredUser cd.client (stripNonDigits dest ++ "@c.us") with
    | error e => rfl
    | ok r =>
      cases tp.sendMessage cd.client (stripNonDigits dest ++ "@c.us") body <;> rfl
  · cases tp.isRegisteredUser cd.client (stripNonDigits dest ++ "@c.us") with
    | error e => simp
    | ok r =>
      cases tp.sendMessage cd.client (stripNonDigits dest ++ "@c.us") body <;> simp

/-- Instance of the amended C13 for the address "+91 98765 43210". -/
theorem sendFromBotanist_prefixed_witness :
    formatNumber "+91 98765 43210" = stripNonDigits "+91 98765 43210" ++ "@c.us" ∧
    ("91".data).isPrefixOf (formatNumber "+91 98765 43210").data = true ∧
    (sendFromBotanist okTransport connectedState 1 (some "+91 98765 43210")
      "hello").calls.head? =
      some (.isRegisteredUser 0 (stripNonDigits "+91 98765 43210" ++ "@c.us")) ∧
    ∀ call ∈ (sendFromBotanist okTransport connectedState 1 (some "+91 98765 43210")
        "hello").calls,
      call = .isRegisteredUser 0 (stripNonDigits "+91 98765 43210" ++ "@c.us") ∨
      call = .sendMessage 0 (stripNonDigits "+91 98765 43210" ++ "@c.us") "hello" :=
  sendFromBotanist_prefixed okTransport connectedState 1 ⟨0, true, none, none⟩
    "+91 98765 43210" "hello" rfl rfl (by decide) (by decide)

/-- C14: for every operator id, destination address (a string, or `null` /
missing), message and transport behaviour (throwing calls included),
`sendFromBotanist` never throws to its caller: its promise resolves with a
boolean, and the boolean is `true` only if the session is Connected and
`sendMessage` was called and completed without error. -/
theorem sendFromBotanist_never_throws (tp : Transport) (s : WaState) (id : Nat)
    (dest : Option String) (body : String) :
    ∃ b, (sendFromBotanist tp s id dest body).result = .ok b ∧
      (b = true → ∃ cd chatId, s.get id = some cd ∧ cd.isReady = true ∧
        TransportCall.sendMessage cd.client chatId body ∈
          (sendFromBotanist tp s id dest body).calls ∧
        tp.sendMessage cd.client chatId body = .ok ()) := by
  cases hg : s.get id with
  | none =>
    rw [sendFromBotanist_no_entry tp s id dest body hg]
    exact ⟨false, rfl, by simp⟩
  | some cd =>
    cases hr : cd.isReady with
    | false =>
      rw [sendFromBotanist_not_ready tp s id cd dest body hg hr]
      exact ⟨false, rfl, by simp⟩
    | true =>
      cases dest with
      | none =>
        rw [sendFromBotanist_null tp s id cd body hg hr]
        exact ⟨false, rfl, by simp⟩
      | some address =>
        rw [sendFromBotanist_connected tp s id cd address body hg hr]
        cases hp : tp.isRegisteredUser cd.client (formatNumber address) with
        | error e => exact ⟨false, rfl, by simp⟩
        | ok r =>
          cases hm : tp.sendMessage cd.client (formatNumber address) body with
          | error e => exact ⟨false, rfl, by simp⟩
          | ok u =>
            exact ⟨true, rfl, fun _ => ⟨cd, formatNumber address, rfl, hr, by simp, hm⟩⟩

/-- C15: if the operator already has a session entry that is Connected
(`isReady` true), `initializeBotanistWhatsApp` returns the existing transport
handle, constructs and initializes no transport, and leaves the module state
(the whole session map and the count of transports created) unchanged. -/
theorem initialize_connected_noop (s : WaState) (userId : Nat) (existing : ClientData)
    (h : s.get userId = some existing) (hr : existing.isReady = true) :
    (initializeBotanistWhatsApp s userId).state = s ∧
    (initializeBotanistWhatsApp s userId).client = existing.client ∧
    (initializeBotanistWhatsApp s userId).calls = [] ∧
    ∀ other, (initializeBotanistWhatsApp s userId).state.get other = s.get other := by
  unfold initializeBotanistWhatsApp
  simp [h, hr]

/-- Instance of C15: botanist 1 is Connected through transport object 0. -/
theorem initialize_connected_noop_witness :
    (initializeBotanistWhatsApp connectedState 1).state = connectedState ∧
    (initializeBotanistWhatsApp connectedState 1).client = 0 ∧
    (initializeBotanistWhatsApp connectedState 1).calls = [] ∧
    ∀ other, (initializeBotanistWhatsApp connectedState 1).state.get other =
      connectedState.get other :=
  initialize_connected_noop connectedState 1 ⟨0, true, none, none⟩ rfl rfl

/-! ## The session registry as a state machine -/

/-- An entry found by `get` is an entry of the map. -/
theorem mem_of_mapGet (m : List (Nat × ClientData)) (k : Nat) (v : ClientData)
    (h : mapGet m k = some v) : (k, v) ∈ m := by
  induction m with
  | nil => simp [mapGet] at h
  | cons e rest ih =>
    obtain ⟨k0, v0⟩ := e
    unfold mapGet at h
    by_cases hk : k0 = k
    · simp only [hk, if_true, Option.some.injEq] at h
      simp [hk, h]
    · simp only [hk, if_false] at h
      exact List.mem_cons_of_mem _ (ih h)

/-- After `set`, every entry is an old entry or the new one. -/
theorem mem_mapSet (m : List (Nat × ClientData)) (k : Nat) (v : ClientData)
    (e : Nat × ClientData) (h : e ∈ mapSet m k v) : e ∈ m ∨ e = (k, v) := by
  induction m with
  | nil =>
    simp only [mapSet, List.mem_singleton] at h
    exact Or.inr h
  | cons e0 rest ih =>
    obtain ⟨k0, v0⟩ := e0
    unfold mapSet at h
    by_cases hk : k0 = k
    · simp only [hk, if_true, List.mem_cons] at h
      rcases h with h | h
      · exact Or.inr h
      · exact Or.inl (List.mem_cons_of_mem _ h)
    · simp only [hk, if_false, List.mem_cons] at h
      rcases h with h | h
      · exact Or.inl (by simp [h])
      · rcases ih h with h2 | h2
        · exact Or.inl (List.mem_cons_of_mem _ h2)
        · exact Or.inr h2

/-- After `delete`, the key has no entry. -/
theorem mapGet_mapDelete_self (m : List (Nat × ClientData)) (k : Nat) :
    mapGet (mapDelete m k) k = none := by
  induction m with
  | nil => rfl
  | cons e rest ih =>
    obtain ⟨k0, v0⟩ := e
    simp only [mapDelete, List.filter_cons] at ih ⊢
    by_cases hk : k0 = k
    · simp [hk, ih]
    · simp [hk, mapGet, ih]

/-- After `delete`, every other key has the entry it had. -/
theorem mapGet_mapDelete_ne (m : List (Nat × ClientData)) (k other : Nat) (hne : other ≠ k) :
    mapGet (mapDelete m k) other = mapGet m other := by
  induction m with
  | nil => rfl
  | cons e rest ih =>
    obtain ⟨k0, v0⟩ := e
    simp only [mapDelete, List.filter_cons] at ih ⊢
    by_cases hk : k0 = k
    · have hko : ¬ k0 = other := fun h => hne (h ▸ hk)
      simp [hk, mapGet, ih, hko, Ne.symm hne]
    · by_cases hko : k0 = other
      · subst hko
        simp [hne, mapGet]
      · simp [hk, mapGet, hko, ih]

/-- The empty map carries no artifact. -/
theorem artifactFree_empty : artifactFree WaState.empty := by
  intro e he
  simp [WaState.empty] at he

/-- An assignment to one `clientData` object keeps the map artifact free when
the object, if Connected afterwards, has no artifact afterwards. -/
theorem artifactFree_updateClient (s : WaState) (client : Nat) (f : ClientData → ClientData)
    (hs : artifactFree s)
    (hf : ∀ e ∈ s.botanistClients, e.2.client = client → (f e.2).isReady = true →
      (f e.2).qrCodeImage = none ∧ (f e.2).qrCodeData = none) :
    artifactFree (updateClient s client f) := by
  intro e he hr
  simp only [updateClient, List.mem_map] at he
  obtain ⟨e0, he0, rfl⟩ := he
  by_cases hc : e0.2.client = client
  · simp only [hc, if_true] at hr ⊢
    exact hf e0 he0 hc hr
  · simp only [hc, if_false] at hr ⊢
    exact hs e0 he0 hr

/-- In a state where transport object `client` has no Connected session, each
of its entries has `isReady` false. -/
theorem isReady_false_of_notConnected (s : WaState) (client : Nat)
    (h : notConnected s client = true) (e : Nat × ClientData) (he : e ∈ s.botanistClients)
    (hc : e.2.client = client) : e.2.isReady = false := by
  simp only [notConnected, List.all_eq_true] at h
  have := h e he
  simpa [hc] using this

/-- `initializeBotanistWhatsApp` keeps the map artifact free. -/
theorem artifactFree_initialize (s : WaState) (userId : Nat) (hs : artifactFree s) :
    artifactFree (initializeBotanistWhatsApp s userId).state := by
  have hfresh : artifactFree
      { botanistClients := mapSet s.botanistClients userId
          { client := s.created, isReady := false, qrCodeImage := none, qrCodeData := none }
        created := s.created + 1 } := by
    intro e he hr
    rcases mem_mapSet _ _ _ _ he with h | h
    · exact hs e h hr
    · subst h
      exact ⟨rfl, rfl⟩
  unfold initializeBotanistWhatsApp
  cases s.get userId with
  | none => exact hfresh
  | some existing =>
    cases hr : existing.isReady with
    | true => simpa [hr] using hs
    | false => simpa [hr] using hfresh

/-- `disconnectBotanist` keeps the map artifact free. -/
theorem artifactFree_disconnect (tp : Transport) (s : WaState) (userId : Nat)
    (hs : artifactFree s) : artifactFree (disconnectBotanist tp s userId).state := by
  have hdel : artifactFree { s with botanistClients := mapDelete s.botanistClients userId } := by
    intro e he hr
    simp only [mapDelete, List.mem_filter] at he
    exact hs e he.1 hr
  unfold disconnectBotanist
  split
  · exact hs
  · split
    · exact hs
    · simp only []
      split <;> exact hdel

/-- One event that respects the pairing order keeps the map artifact free. -/
theorem artifactFree_step (tp : Transport) (s : WaState) (e : WaEvent)
    (hs : artifactFree s) (ho : pairingOrdered s e = true) :
    artifactFree (stepWa tp s e) := by
  cases e with
  | connect userId => exact artifactFree_initialize s userId hs
  | disconnect userId => exact artifactFree_disconnect tp s userId hs
  | qr client code =>
    apply artifactFree_updateClient s client _ hs
    intro e he hc hr
    have := isReady_false_of_notConnected s client ho e he hc
    simp [this] at hr
  | qrImage client image =>
    apply artifactFree_updateClient s client _ hs
    intro e he hc hr
    have := isReady_false_of_notConnected s client ho e he hc
    simp [this] at hr
  | ready client =>
    apply artifactFree_updateClient s client _ hs
    intro e he hc hr
    exact ⟨rfl, rfl⟩
  | authFailure client =>
    apply artifactFree_updateClient s client _ hs
    intro e he hc hr
    simp at hr
  | disconnected client =>
    apply artifactFree_updateClient s client _ hs
    intro e he hc hr
    simp at hr

/-- A sequence of events that respects the pairing order keeps the map
artifact free. -/
theorem artifactFree_run (tp : Transport) (events : List WaEvent) :
    ∀ s : WaState, artifactFree s → pairingOrderedFrom tp s events = true →
      artifactFree (events.foldl (stepWa tp) s) := by
  induction events with
  | nil => intro s hs _; exact hs
  | cons e rest ih =>
    intro s hs ho
    simp only [pairingOrderedFrom, Bool.and_eq_true] at ho
    exact ih (stepWa tp s e) (artifactFree_step tp s e hs ho.1) ho.2

/-- C16, the claim as worded fails: after connect, `ready`, then a `qr` event
with its image, the session of botanist 1 is Connected and
`getBotanistStatus` returns a pairing image for it. -/
theorem connected_session_with_artifact :
    getBotanistStatus (runWa okTransport
      [.connect 1, .ready 0, .qr 0 "code", .qrImage 0 "data:image/png"]) 1 =
      { isReady := true, qrCodeImage := some "data:image/png" } := by
  decide

/-- C16, amended: in every state reachable from an empty session map through
connect, disconnect and the transport events, in any order in which the `qr`
handler never runs for a transport object whose session is Connected, a
Connected session carries no pairing artifact, and `getBotanistStatus`
returns a non-null `qrCodeImage` only for a session with `isReady` false. -/
theorem connected_session_artifact_free (tp : Transport) (events : List WaEvent)
    (ho : pairingOrderedFrom tp WaState.empty events = true) :
    (∀ userId cd, (runWa tp events).get userId = some cd → cd.isReady = true →
      cd.qrCodeImage = none ∧ cd.qrCodeData = none) ∧
    (∀ userId, (getBotanistStatus (runWa tp events) userId).qrCodeImage ≠ none →
      (getBotanistStatus (runWa tp events) userId).isReady = false ∧
      ∃ cd, (runWa tp events).get userId = some cd) := by
  have hinv : artifactFree (runWa tp events) :=
    artifactFree_run tp events WaState.empty artifactFree_empty ho
  have key : ∀ userId cd, (runWa tp events).get userId = some cd → cd.isReady = true →
      cd.qrCodeImage = none ∧ cd.qrCodeData = none := by
    intro userId cd hg hr
    exact hinv (userId, cd) (mem_of_mapGet _ _ _ hg) hr
  refine ⟨key, ?_⟩
  intro userId hq
  unfold getBotanistStatus at hq ⊢
  cases hg : (runWa tp events).get userId with
  | none => simp [hg] at hq
  | some cd =>
    simp only [hg] at hq ⊢
    refine ⟨?_, cd, rfl⟩
    cases hr : cd.isReady with
    | false => rfl
    | true => exact absurd (key userId cd hg hr).1 hq

/-- Instance of the amended C16 on a run that ends with botanist 1 Connected
and botanist 2 awaiting pairing: the Connected session carries neither code
nor image, and the one pairing image that `getBotanistStatus` returns belongs
to the session with `isReady` false. -/
theorem connected_session_artifact_free_witness :
    ((∀ userId cd, (runWa okTransport pairingRun).get userId = some cd → cd.isReady = true →
        cd.qrCodeImage = none ∧ cd.qrCodeData = none) ∧
      (∀ userId, (getBotanistStatus (runWa okTransport pairingRun) userId).qrCodeImage ≠ none →
        (getBotanistStatus (runWa okTransport pairingRun) userId).isReady = false ∧
        ∃ cd, (runWa okTransport pairingRun).get userId = some cd)) ∧
    (runWa okTransport pairingRun).get 1 = some ⟨0, true, none, none⟩ ∧
    (runWa okTransport pairingRun).get 2 = some ⟨1, false, some "img2", some "code2"⟩ ∧
    getBotanistStatus (runWa okTransport pairingRun) 1 =
      { isReady := true, qrCodeImage := none } ∧
    getBotanistStatus (runWa okTransport pairingRun) 2 =
      { isReady := false, qrCodeImage := some "img2" } :=
  ⟨connected_session_artifact_free okTransport pairingRun (by decide),
    by decide, by decide, by decide, by decide⟩

/-- C17: after `disconnectBotanist(op)` completes for an operator that has a
session, the session map has no entry for `op`: `getBotanistStatus(op)` is the
default `{isReady: false, qrCodeImage: null}` and `sendFromBotanist` as `op`
returns false without a transport call; the transport object was destroyed,
the store accepted the statement that clears the session-active flag of `op`,
and every other operator's entry is unchanged. -/
theorem disconnect_removes_session (tp : Transport) (s : WaState) (op : Nat)
    (cd : ClientData) (h : s.get op = some cd)
    (hc : (disconnectBotanist tp s op).result = .ok ()) :
    (disconnectBotanist tp s op).state.get op = none ∧
    getBotanistStatus (disconnectBotanist tp s op).state op =
      { isReady := false, qrCodeImage := none } ∧
    (∀ (tp2 : Transport) (dest : Option String) (body : String),
      sendFromBotanist tp2 (disconnectBotanist tp s op).state op dest body = ⟨.ok false, []⟩) ∧
    (disconnectBotanist tp s op).calls = [.destroy cd.client] ∧
    (disconnectBotanist tp s op).statements = [.clearSessionActive op] ∧
    tp.run (.clearSessionActive op) = .ok () ∧
    (∀ other, other ≠ op →
      (disconnectBotanist tp s op).state.get other = s.get other) := by
  have hstate : disconnectBotanist tp s op =
      ⟨{ s with botanistClients := mapDelete s.botanistClients op }, .ok (),
        [.destroy cd.client], [.clearSessionActive op]⟩ ∧
      tp.run (.clearSessionActive op) = .ok () := by
    unfold disconnectBotanist at hc ⊢
    simp only [h] at hc ⊢
    cases hd : tp.destroy cd.client with
    | error e => simp [hd] at hc
    | ok u =>
      cases hrun : tp.run (.clearSessionActive op) with
      | error e => simp [hd, hrun] at hc
      | ok u2 => simp
  obtain ⟨hst, hrun⟩ := hstate
  have hget : (disconnectBotanist tp s op).state.get op = none := by
    rw [hst]
    exact mapGet_mapDelete_self _ _
  refine ⟨hget, ?_, ?_, ?_, ?_, hrun, ?_⟩
  · unfold getBotanistStatus
    rw [hget]
  · intro tp2 dest body
    exact sendFromBotanist_no_entry tp2 _ op dest body hget
  · rw [hst]
  · rw [hst]
  · intro other hne
    rw [hst]
    exact mapGet_mapDelete_ne _ _ _ hne

/-- Instance of C17: botanist 1 is Connected and is disconnected. -/
theorem disconnect_removes_session_witness :
    (disconnectBotanist okTransport connectedState 1).state.get 1 = none ∧
    getBotanistStatus (disconnectBotanist okTransport connectedState 1).state 1 =
      { isReady := false, qrCodeImage := none } ∧
    (∀ (tp2 : Transport) (dest : Option String) (body : String),
      sendFromBotanist tp2 (disconnectBotanist okTransport connectedState 1).state 1 dest body =
        ⟨.ok false, []⟩) ∧
    (disconnectBotanist okTransport connectedState 1).calls = [.destroy 0] ∧
    (disconnectBotanist okTransport connectedState 1).statements = [.clearSessionActive 1] ∧
    okTransport.run (.clearSessionActive 1) = .ok () ∧
    (∀ other, other ≠ 1 →
      (disconnectBotanist okTransport connectedState 1).state.get other =
        connectedState.get other) :=
  disconnect_removes_session okTransport connectedState 1 ⟨0, true, none, none⟩ rfl rfl

/-- C18, the claim as worded fails: with a Connected session and a transport
whose registration probe throws while its `sendMessage` would succeed,
`sendFromBotanist` returns false after the probe and never calls
`sendMessage`. -/
theorem probe_failure_skips_send :
    (sendFromBotanist probeFailingTransport connectedState 1 (some "9876543210")
      "hello").result = .ok false ∧
    (sendFromBotanist probeFailingTransport connectedState 1 (some "9876543210")
      "hello").calls = [.isRegisteredUser 0 "919876543210@c.us"] ∧
    probeFailingTransport.sendMessage 0 "919876543210@c.us" "hello" = .ok () := by
  have h := sendFromBotanist_connected probeFailingTransport connectedState 1
    ⟨0, true, none, none⟩ "9876543210" "hello" rfl rfl
  refine ⟨?_, ?_, rfl⟩
  · rw [h]
    rfl
  · rw [h]
    decide

/-- C18, amended: for a Connected session, when the registration probe
returns, whether it reports the address as registered or not,
`sendFromBotanist` performs the `sendMessage` call and returns the outcome of
that send (true exactly when it completed); when the probe throws, the
`catch` returns false and `sendMessage` is not called. -/
theorem probe_result_is_advisory (tp : Transport) (s : WaState) (id : Nat)
    (cd : ClientData) (dest body : String)
    (h : s.get id = some cd) (hr : cd.isReady = true) :
    (∀ registered, tp.isRegisteredUser cd.client (formatNumber dest) = .ok registered →
      (sendFromBotanist tp s id (some dest) body).calls =
        [.isRegisteredUser cd.client (formatNumber dest),
         .sendMessage cd.client (formatNumber dest) body] ∧
      ((sendFromBotanist tp s id (some dest) body).result = .ok true ↔
        tp.sendMessage cd.client (formatNumber dest) body = .ok ()) ∧
      ((sendFromBotanist tp s id (some dest) body).result = .ok false ↔
        ∃ e, tp.sendMessage cd.client (formatNumber dest) body = .error e)) ∧
    (∀ e, tp.isRegisteredUser cd.client (formatNumber dest) = .error e →
      (sendFromBotanist tp s id (some dest) body).calls =
        [.isRegisteredUser cd.client (formatNumber dest)] ∧
      (sendFromBotanist tp s id (some dest) body).result = .ok false) := by
  rw [sendFromBotanist_connected tp s id cd dest body h hr]
  constructor
  · intro registered hp
    rw [hp]
    cases hm : tp.sendMessage cd.client (formatNumber dest) body with
    | error e => simp
    | ok u => simp
  · intro e hp
    rw [hp]
    exact ⟨rfl, rfl⟩

/-- Instance of the amended C18: a Connected session and a transport that
accepts every call. -/
theorem probe_result_is_advisory_witness :
    (∀ registered,
      okTransport.isRegisteredUser 0 (formatNumber "9876543210") = .ok registered →
      (sendFromBotanist okTransport connectedState 1 (some "9876543210") "hello").calls =
        [.isRegisteredUser 0 (formatNumber "9876543210"),
         .sendMessage 0 (formatNumber "9876543210") "hello"] ∧
      ((sendFromBotanist okTransport connectedState 1 (some "9876543210") "hello").result =
          .ok true ↔
        okTransport.sendMessage 0 (formatNumber "9876543210") "hello" = .ok ()) ∧
      ((sendFromBotanist okTransport connectedState 1 (some "9876543210") "hello").result =
          .ok false ↔
        ∃ e, okTransport.sendMessage 0 (formatNumber "9876543210") "hello" = .error e)) ∧
    (∀ e, okTransport.isRegisteredUser 0 (formatNumber "9876543210") = .error e →
      (sendFromBotanist okTransport connectedState 1 (some "9876543210") "hello").calls =
        [.isRegisteredUser 0 (formatNumber "9876543210")] ∧
      (sendFromBotanist okTransport connectedState 1 (some "9876543210") "hello").result =
        .ok false) :=
  probe_result_is_advisory okTransport connectedState 1 ⟨0, true, none, none⟩
    "9876543210" "hello" rfl rfl

/-! ## Properties of the notification service -/

/-- The promise of `sendFromBotanist` always resolves with a boolean. -/
theorem sendFromBotanist_resolves (tp : Transport) (s : WaState) (id : Nat)
    (dest : Option String) (body : String) :
    ∃ b, (sendFromBotanist tp s id dest body).result = .ok b := by
  unfold sendFromBotanist
  split
  · exact ⟨false, rfl⟩
  · split
    · exact ⟨false, rfl⟩
    · simp only []
      split
      · exact ⟨_, rfl⟩
      · exact ⟨false, rfl⟩

/-- The WhatsApp branch never rejects, and every entry it pushes is a
`whatsapp` entry. -/
theorem sendWhatsappChannel_ok (tp : Transport) (s : WaState) (user : NotifyUser)
    (message : String) (channels : List String) (botanistId : Option Nat) :
    ∃ wa, (sendWhatsappChannel tp s user message channels botanistId).result = .ok wa ∧
      ∀ r ∈ wa, r.channel = "whatsapp" := by
  unfold sendWhatsappChannel
  simp only []
  split
  · obtain ⟨b, hb⟩ := sendFromBotanist_resolves tp s (botanistId.getD 0)
      user.whatsapp_number message
    rw [hb]
    exact ⟨[⟨"whatsapp", b, none⟩], rfl, by simp⟩
  · split
    · exact ⟨[⟨"whatsapp", false, some "No botanist ID"⟩], rfl, by simp⟩
    · exact ⟨[], rfl, by simp⟩

/-- The result array of `NotificationService.send`: the entries of the
WhatsApp branch, then the email entry when email is selected and the user
has an email address, then the sms entry when sms is selected and the user
has a phone number. -/
theorem send_result (tp : Transport) (s : WaState) (user : NotifyUser)
    (message : String) (channels : Option (List String)) (botanistId : Option Nat) :
    ∃ wa, (sendWhatsappChannel tp s user message (effectiveChannels channels)
        botanistId).result = .ok wa ∧
      (∀ r ∈ wa, r.channel = "whatsapp") ∧
      (NotificationService.send tp s user message channels botanistId).result =
        .ok (wa ++
          (if (effectiveChannels channels).contains "email" && truthy user.email then
            [⟨"email", true, none⟩] else []) ++
          (if (effectiveChannels channels).contains "sms" && truthy user.phone then
            [⟨"sms", true, none⟩] else [])) := by
  obtain ⟨wa, hwa, hch⟩ :=
    sendWhatsappChannel_ok tp s user message (effectiveChannels channels) botanistId
  refine ⟨wa, hwa, hch, ?_⟩
  unfold NotificationService.send
  simp only [hwa]
  cases ((effectiveChannels channels).contains "email" && truthy user.email) <;>
    cases ((effectiveChannels channels).contains "sms" && truthy user.phone) <;> simp

/-- The entries of one channel in the result array, for a channel other than
`whatsapp`. -/
theorem entriesOf_result (wa : List ChannelResult) (hwa : ∀ r ∈ wa, r.channel = "whatsapp")
    (e p : Bool) :
    entriesOf "email" (wa ++ (if e then [⟨"email", true, none⟩] else []) ++
        (if p then [⟨"sms", true, none⟩] else [])) =
      (if e then [⟨"email", true, none⟩] else []) ∧
    entriesOf "sms" (wa ++ (if e then [⟨"email", true, none⟩] else []) ++
        (if p then [⟨"sms", true, none⟩] else [])) =
      (if p then [⟨"sms", true, none⟩] else []) := by
  have h1 : entriesOf "email" wa = [] := by
    unfold entriesOf
    rw [List.filter_eq_nil_iff]
    intro r hr
    rw [hwa r hr]
    decide
  have h2 : entriesOf "sms" wa = [] := by
    unfold entriesOf
    rw [List.filter_eq_nil_iff]
    intro r hr
    rw [hwa r hr]
    decide
  unfold entriesOf at h1 h2 ⊢
  simp only [List.filter_append, h1, h2, List.nil_append]
  cases e <;> cases p <;> decide

/-- C19: for every user with a WhatsApp number, message and channel selection
containing whatsapp, when `NotificationService.send` is called with no
operator context (`botanistId` null, absent, or otherwise falsy), the result
contains exactly one whatsapp entry, with success false, and neither
`sendFromBotanist` nor any transport is called: no fallback operator is
picked. -/
theorem send_without_operator (tp : Transport) (s : WaState) (user : NotifyUser)
    (message : String) (channels : Option (List String)) (botanistId : Option Nat)
    (hw : truthy user.whatsapp_number = true)
    (hc : "whatsapp" ∈ effectiveChannels channels)
    (hb : idTruthy botanistId = false) :
    ∃ results, (NotificationService.send tp s user message channels botanistId).result =
        .ok results ∧
      entriesOf "whatsapp" results = [⟨"whatsapp", false, some "No botanist ID"⟩] ∧
      (NotificationService.send tp s user message channels botanistId).sends = [] ∧
      (NotificationService.send tp s user message channels botanistId).calls = [] := by
  have hwa : sendWhatsappChannel tp s user message (effectiveChannels channels) botanistId =
      ⟨.ok [⟨"whatsapp", false, some "No botanist ID"⟩], [], []⟩ := by
    unfold sendWhatsappChannel
    simp [hc, hw, hb]
  have hsend : NotificationService.send tp s user message channels botanistId =
      ⟨.ok ([⟨"whatsapp", false, some "No botanist ID"⟩] ++
          (if (effectiveChannels channels).contains "email" && truthy user.email then
            [⟨"email", true, none⟩] else []) ++
          (if (effectiveChannels channels).contains "sms" && truthy user.phone then
            [⟨"sms", true, none⟩] else [])), [], []⟩ := by
    unfold NotificationService.send
    simp only [hwa]
    cases ((effectiveChannels channels).contains "email" && truthy user.email) <;>
      cases ((effectiveChannels channels).contains "sms" && truthy user.phone) <;> rfl
  rw [hsend]
  refine ⟨_, rfl, ?_, rfl, rfl⟩
  unfold entriesOf
  cases ((effectiveChannels channels).contains "email" && truthy user.email) <;>
    cases ((effectiveChannels channels).contains "sms" && truthy user.phone) <;> decide

/-- Instance of C19: all three channels selected, a user with all three
addresses, a Connected botanist 1 in the registry, and no operator context. -/
theorem send_without_operator_witness :
    ∃ results, (NotificationService.send okTransport connectedState sampleUser "hello"
        (some ["whatsapp", "email", "sms"]) none).result = .ok results ∧
      entriesOf "whatsapp" results = [⟨"whatsapp", false, some "No botanist ID"⟩] ∧
      (NotificationService.send okTransport connectedState sampleUser "hello"
        (some ["whatsapp", "email", "sms"]) none).sends = [] ∧
      (NotificationService.send okTransport connectedState sampleUser "hello"
        (some ["whatsapp", "email", "sms"]) none).calls = [] :=
  send_without_operator okTransport connectedState sampleUser "hello"
    (some ["whatsapp", "email", "sms"]) none (by decide) (by decide) (by decide)

/-- C20: for every user, message, channel selection and operator context
(and every registry and transport), the promise of
`NotificationService.send` resolves with a result array that contains an
email entry with success true if and only if email is selected and the user
has an email address, and an sms entry with success true if and only if sms
is selected and the user has a phone number; the email and sms entries are a
function of the selection and the user alone, the same for every operator
context, registry and transport. -/
theorem send_email_sms (tp : Transport) (s : WaState) (user : NotifyUser)
    (message : String) (channels : Option (List String)) (botanistId : Option Nat) :
    ∃ results, (NotificationService.send tp s user message channels botanistId).result =
        .ok results ∧
      ((∃ r ∈ results, r.channel = "email" ∧ r.success = true) ↔
        ("email" ∈ effectiveChannels channels ∧ truthy user.email = true)) ∧
      ((∃ r ∈ results, r.channel = "sms" ∧ r.success = true) ↔
        ("sms" ∈ effectiveChannels channels ∧ truthy user.phone = true)) ∧
      entriesOf "email" results =
        (if (effectiveChannels channels).contains "email" && truthy user.email then
          [⟨"email", true, none⟩] else []) ∧
      entriesOf "sms" results =
        (if (effectiveChannels channels).contains "sms" && truthy user.phone then
          [⟨"sms", true, none⟩] else []) ∧
      ∀ (tp2 : Transport) (s2 : WaState) (botanistId2 : Option Nat),
        ∃ results2, (NotificationService.send tp2 s2 user message channels
            botanistId2).result = .ok results2 ∧
          entriesOf "email" results2 = entriesOf "email" results ∧
          entriesOf "sms" results2 = entriesOf "sms" results := by
  obtain ⟨wa, _, hch, hres⟩ := send_result tp s user message channels botanistId
  obtain ⟨he, hp⟩ := entriesOf_result wa hch
    ((effectiveChannels channels).contains "email" && truthy user.email)
    ((effectiveChannels channels).contains "sms" && truthy user.phone)
  have mem_entries : ∀ (c : String) (l : List ChannelResult),
      (∃ r ∈ l, r.channel = c ∧ r.success = true) ↔
        ∃ r ∈ entriesOf c l, r.success = true := by
    intro c l
    unfold entriesOf
    constructor
    · rintro ⟨r, hr, hc, hs⟩
      exact ⟨r, List.mem_filter.mpr ⟨hr, by simp [hc]⟩, hs⟩
    · rintro ⟨r, hr, hs⟩
      obtain ⟨hr1, hr2⟩ := List.mem_filter.mp hr
      exact ⟨r, hr1, by simpa using hr2, hs⟩
  refine ⟨_, hres, ?_, ?_, he, hp, ?_⟩
  · rw [mem_entries, he]
    cases h1 : (effectiveChannels channels).contains "email" <;>
      cases h2 : truthy user.email <;> simp_all
  · rw [mem_entries, hp]
    cases h1 : (effectiveChannels channels).contains "sms" <;>
      cases h2 : truthy user.phone <;> simp_all
  · intro tp2 s2 botanistId2
    obtain ⟨wa2, _, hch2, hres2⟩ := send_result tp2 s2 user message channels botanistId2
    obtain ⟨he2, hp2⟩ := entriesOf_result wa2 hch2
      ((effectiveChannels channels).contains "email" && truthy user.email)
      ((effectiveChannels channels).contains "sms" && truthy user.phone)
    exact ⟨_, hres2, by rw [he2, he], by rw [hp2, hp]⟩

/-- C21, what the code does: when `NotificationService.send` is called
without a channels argument the selection in force is `['whatsapp']` alone,
not all channels as the documentation comment of the function says: for every
user, also one with an email address and a phone number, the result holds no
email entry and no sms entry. -/
theorem send_default_is_whatsapp_only (tp : Transport) (s : WaState) (user : NotifyUser)
    (message : String) (botanistId : Option Nat) :
    effectiveChannels none = ["whatsapp"] ∧
    ∃ results, (NotificationService.send tp s user message none botanistId).result =
        .ok results ∧
      entriesOf "email" results = [] ∧ entriesOf "sms" results = [] ∧
      (NotificationService.send okTransport connectedState sampleUser "hello" none
        (some 1)).result = .ok [⟨"whatsapp", true, none⟩] := by
  refine ⟨rfl, ?_⟩
  obtain ⟨wa, _, hch, hres⟩ := send_result tp s user message none botanistId
  obtain ⟨he, hp⟩ := entriesOf_result wa hch
    ((effectiveChannels none).contains "email" && truthy user.email)
    ((effectiveChannels none).contains "sms" && truthy user.phone)
  have h1 : (effectiveChannels none).contains "email" = false := by decide
  have h2 : (effectiveChannels none).contains "sms" = false := by decide
  refine ⟨_, hres, ?_, ?_, ?_⟩
  · rw [he, h1]
    rfl
  · rw [hp, h2]
    rfl
  · rfl

/-! ## Properties of the alert tick -/

/-- The updates of a concatenated trace. -/
theorem markedIds_append (a b : List TickEffect) :
    markedIds (a ++ b) = markedIds a ++ markedIds b := by
  simp [markedIds, List.filterMap_append]

/-- The transport calls of a delivery are no updates. -/
theorem markedIds_transport (calls : List TransportCall) :
    markedIds (calls.map TickEffect.transport) = [] := by
  induction calls with
  | nil => rfl
  | cons c rest ih =>
    simp only [markedIds, List.map_cons, List.filterMap_cons] at ih ⊢
    exact ih

/-- One iteration of the tick loop: whatever the delivery does, the iteration
ends with the update of its row, and its outcome is the outcome of that
update. -/
theorem tickRow_spec (tp : Transport) (st : SchedulerStore) (s : WaState) (alert : DueAlert) :
    ∃ pre, markedIds pre = [] ∧
      (tickRow tp st s alert).trace = pre ++ [.markSent alert.alert_id] ∧
      (tickRow tp st s alert).result = st.markSent alert.alert_id := by
  have hdel : ∃ d, markedIds d = [] ∧
      (if !idTruthy alert.created_by_botanist_id then (⟨.ok (), []⟩ : TickRun)
        else
          match (sendFromBotanist tp s (alert.created_by_botanist_id.getD 0)
              alert.whatsapp_number (tickMessage alert)).result with
          | .error e => ⟨.error e,
              TickEffect.send ⟨alert.created_by_botanist_id.getD 0, alert.whatsapp_number,
                tickMessage alert⟩ ::
              (sendFromBotanist tp s (alert.created_by_botanist_id.getD 0)
                alert.whatsapp_number (tickMessage alert)).calls.map TickEffect.transport⟩
          | .ok _ => ⟨.ok (),
              TickEffect.send ⟨alert.created_by_botanist_id.getD 0, alert.whatsapp_number,
                tickMessage alert⟩ ::
              (sendFromBotanist tp s (alert.created_by_botanist_id.getD 0)
                alert.whatsapp_number (tickMessage alert)).calls.map TickEffect.transport⟩) =
        ⟨.ok (), d⟩ := by
    cases idTruthy alert.created_by_botanist_id with
    | false => exact ⟨[], rfl, rfl⟩
    | true =>
      obtain ⟨b, hb⟩ := sendFromBotanist_resolves tp s
        (alert.created_by_botanist_id.getD 0) alert.whatsapp_number (tickMessage alert)
      refine ⟨_, ?_, by simp only [hb]; rfl⟩
      simp only [markedIds, List.filterMap_cons]
      exact markedIds_transport _
  obtain ⟨d, hd, hrun⟩ := hdel
  unfold tickRow
  simp only [hrun]
  refine ⟨(if truthy alert.phone then
      (if truthy alert.email then d ++ [.mockEmail (alert.email.getD "") (tickMessage alert)]
        else d) ++ [.mockSms (alert.phone.getD "") (tickMessage alert)]
      else (if truthy alert.email then
        d ++ [.mockEmail (alert.email.getD "") (tickMessage alert)] else d)), ?_, ?_, ?_⟩
  · cases truthy alert.phone <;> cases truthy alert.email <;>
      simp only [Bool.false_eq_true, if_false, if_true, markedIds_append, hd] <;> rfl
  · cases st.markSent alert.alert_id <;> rfl
  · cases st.markSent alert.alert_id <;> rfl

/-- The loop after an iteration that ended normally. -/
theorem tickLoop_cons_ok (tp : Transport) (st : SchedulerStore) (s : WaState)
    (a : DueAlert) (rest : List DueAlert) (ha : st.markSent a.alert_id = .ok ()) :
    tickLoop tp st s (a :: rest) =
      ⟨(tickLoop tp st s rest).result,
        (tickRow tp st s a).trace ++ (tickLoop tp st s rest).trace⟩ := by
  obtain ⟨_, _, _, hres⟩ := tickRow_spec tp st s a
  rw [ha] at hres
  rw [tickLoop]
  simp only [hres]

/-- The loop after an iteration whose update the store rejected. -/
theorem tickLoop_cons_error (tp : Transport) (st : SchedulerStore) (s : WaState)
    (a : DueAlert) (rest : List DueAlert) (e : JsError)
    (ha : st.markSent a.alert_id = .error e) :
    tickLoop tp st s (a :: rest) = ⟨.error e, (tickRow tp st s a).trace⟩ := by
  obtain ⟨_, _, _, hres⟩ := tickRow_spec tp st s a
  rw [ha] at hres
  rw [tickLoop]
  simp only [hres]

/-- The updates of one iteration: the update of its row. -/
theorem markedIds_tickRow (tp : Transport) (st : SchedulerStore) (s : WaState)
    (a : DueAlert) : markedIds (tickRow tp st s a).trace = [a.alert_id] := by
  obtain ⟨d, hd, htr, _⟩ := tickRow_spec tp st s a
  rw [htr, markedIds_append, hd]
  rfl

/-- When the store accepts the update of every row, the loop runs to its end
and updates every row, in order. -/
theorem tickLoop_all_ok (tp : Transport) (st : SchedulerStore) (s : WaState)
    (alerts : List DueAlert) (hrun : ∀ a ∈ alerts, st.markSent a.alert_id = .ok ()) :
    (tickLoop tp st s alerts).result = .ok () ∧
    markedIds (tickLoop tp st s alerts).trace = alerts.map fun a => a.alert_id := by
  induction alerts with
  | nil => exact ⟨rfl, rfl⟩
  | cons a rest ih =>
    have ha : st.markSent a.alert_id = .ok () := hrun a (List.mem_cons_self _ _)
    obtain ⟨ih1, ih2⟩ := ih (fun b hb => hrun b (List.mem_cons_of_mem _ hb))
    rw [tickLoop_cons_ok tp st s a rest ha]
    refine ⟨ih1, ?_⟩
    simp only [markedIds_append, markedIds_tickRow, ih2, List.map_cons, List.singleton_append]

/-- When the store rejects the update of a row, the loop ends there: the rows
before it are updated, its own update is the last effect, and the rows after
it contribute nothing. -/
theorem tickLoop_abort (tp : Transport) (st : SchedulerStore) (s : WaState)
    (pre post : List DueAlert) (a : DueAlert) (e : JsError)
    (hpre : ∀ b ∈ pre, st.markSent b.alert_id = .ok ())
    (ha : st.markSent a.alert_id = .error e) :
    (tickLoop tp st s (pre ++ a :: post)).result = .error e ∧
    (tickLoop tp st s (pre ++ a :: post)).trace = (tickLoop tp st s (pre ++ [a])).trace ∧
    markedIds (tickLoop tp st s (pre ++ a :: post)).trace =
      (pre.map fun b => b.alert_id) ++ [a.alert_id] := by
  induction pre with
  | nil =>
    simp only [List.nil_append, List.map_nil]
    rw [tickLoop_cons_error tp st s a post e ha, tickLoop_cons_error tp st s a [] e ha]
    exact ⟨rfl, rfl, markedIds_tickRow tp st s a⟩
  | cons b rest ih =>
    have hb : st.markSent b.alert_id = .ok () := hpre b (List.mem_cons_self _ _)
    obtain ⟨ih1, ih2, ih3⟩ := ih (fun c hc => hpre c (List.mem_cons_of_mem _ hc))
    simp only [List.cons_append, List.map_cons]
    rw [tickLoop_cons_ok tp st s b _ hb, tickLoop_cons_ok tp st s b _ hb]
    refine ⟨ih1, by rw [ih2], ?_⟩
    simp only [markedIds_append, markedIds_tickRow, ih3, List.singleton_append]

/-- The tick after a successful scan: the scan, then the loop over the rows;
the `catch` swallows the error of the loop, so the promise resolves. -/
theorem alertTick_of_scan (tp : Transport) (st : SchedulerStore) (s : WaState)
    (alerts : List DueAlert) (hscan : st.dueAlerts = .ok alerts) :
    (alertTick tp st s).result = .ok () ∧
    (alertTick tp st s).trace = .scan :: (tickLoop tp st s alerts).trace ∧
    (alertTick tp st s).caught =
      (match (tickLoop tp st s alerts).result with
       | .error e => some e
       | .ok _ => none) := by
  unfold alertTick
  simp only [hscan]
  cases alerts with
  | nil => exact ⟨rfl, rfl, rfl⟩
  | cons a rest =>
    simp only [List.length_cons, Nat.add_one_ne_zero, if_false]
    cases (tickLoop tp st s (a :: rest)).result <;> exact ⟨rfl, rfl, rfl⟩

/-- The scan is no update. -/
theorem markedIds_scan_cons (tr : List TickEffect) :
    markedIds (.scan :: tr) = markedIds tr := rfl

/-- C22: in every alert tick whose store operations succeed, every row
returned by the due scan is updated to status sent, in scan order, whatever
the registry and the transport do with the delivery of that row (send
returned false, session not Connected, no WhatsApp number, no creator); the
tick ends without error, and a scan returning zero rows performs no update
and no send. -/
theorem alertTick_marks_all (tp : Transport) (st : SchedulerStore) (s : WaState)
    (alerts : List DueAlert) (hscan : st.dueAlerts = .ok alerts)
    (hrun : ∀ id, st.markSent id = .ok ()) :
    (alertTick tp st s).result = .ok () ∧
    (alertTick tp st s).caught = none ∧
    markedIds (alertTick tp st s).trace = alerts.map (fun a => a.alert_id) ∧
    (alerts = [] → (alertTick tp st s).trace = [.scan]) := by
  obtain ⟨h1, h2, h3⟩ := alertTick_of_scan tp st s alerts hscan
  obtain ⟨h4, h5⟩ := tickLoop_all_ok tp st s alerts (fun a _ => hrun a.alert_id)
  refine ⟨h1, ?_, ?_, ?_⟩
  · rw [h3, h4]
  · rw [h2, markedIds_scan_cons, h5]
  · intro hnil
    rw [h2, hnil]
    rfl

/-- Instance of C22: two due rows, the first created by the Connected
botanist 1 with a transport whose probe throws (the send returns false), the
second without a creator; both are marked sent, in scan order. -/
theorem alertTick_marks_all_witness :
    (alertTick probeFailingTransport okSchedulerStore connectedState).result = .ok () ∧
    (alertTick probeFailingTransport okSchedulerStore connectedState).caught = none ∧
    markedIds (alertTick probeFailingTransport okSchedulerStore connectedState).trace =
      [sampleDueAlert, systemDueAlert].map (fun a => a.alert_id) ∧
    ([sampleDueAlert, systemDueAlert] = [] →
      (alertTick probeFailingTransport okSchedulerStore connectedState).trace = [.scan]) :=
  alertTick_marks_all probeFailingTransport okSchedulerStore connectedState
    [sampleDueAlert, systemDueAlert] rfl (fun _ => rfl)

/-- C24, the claim as worded fails: the due scan returns alerts 7 and 8 and
the store rejects the update of alert 7; the `catch` around the whole tick
ends the loop, and alert 8 is neither processed nor marked sent. -/
theorem failed_update_aborts_tick :
    failingSchedulerStore.dueAlerts = .ok [sampleDueAlert, systemDueAlert] ∧
    failingSchedulerStore.markSent 8 = .ok () ∧
    markedIds (alertTick okTransport failingSchedulerStore connectedState).trace = [7] ∧
    (alertTick okTransport failingSchedulerStore connectedState).caught =
      some (.storeError "SQLITE_BUSY") := by
  obtain ⟨_, h2, h3⟩ := alertTick_of_scan okTransport failingSchedulerStore connectedState
    [sampleDueAlert, systemDueAlert] rfl
  obtain ⟨h4, _, h6⟩ := tickLoop_abort okTransport failingSchedulerStore connectedState
    [] [systemDueAlert] sampleDueAlert (.storeError "SQLITE_BUSY") (by simp) rfl
  refine ⟨rfl, rfl, ?_, ?_⟩
  · rw [h2, markedIds_scan_cons]
    exact h6
  · rw [h3]
    simp only [List.nil_append] at h4
    rw [h4]

/-- C24, amended: in an alert tick a failed delivery never aborts the scan:
whatever the registry and the transport do, when the store accepts the
updates every row of the scan is marked sent. A failed store update when
marking a row sent is caught by the `try`/`catch` around the whole tick and
ends it: the rows before the failing row are marked sent, the update of the
failing row is the last effect of the tick, and the rows after it are not
processed. -/
theorem tick_failure_locality (tp : Transport) (st : SchedulerStore) (s : WaState) :
    (∀ alerts, st.dueAlerts = .ok alerts →
      (∀ a ∈ alerts, st.markSent a.alert_id = .ok ()) →
      (alertTick tp st s).caught = none ∧
      markedIds (alertTick tp st s).trace = alerts.map (fun a => a.alert_id)) ∧
    (∀ pre a post e, st.dueAlerts = .ok (pre ++ a :: post) →
      (∀ b ∈ pre, st.markSent b.alert_id = .ok ()) →
      st.markSent a.alert_id = .error e →
      (alertTick tp st s).result = .ok () ∧
      (alertTick tp st s).caught = some e ∧
      markedIds (alertTick tp st s).trace = pre.map (fun b => b.alert_id) ++ [a.alert_id] ∧
      (alertTick tp st s).trace = .scan :: (tickLoop tp st s (pre ++ [a])).trace) := by
  constructor
  · intro alerts hscan hrun
    obtain ⟨_, h2, h3⟩ := alertTick_of_scan tp st s alerts hscan
    obtain ⟨h4, h5⟩ := tickLoop_all_ok tp st s alerts hrun
    exact ⟨by rw [h3, h4], by rw [h2, markedIds_scan_cons, h5]⟩
  · intro pre a post e hscan hpre ha
    obtain ⟨h1, h2, h3⟩ := alertTick_of_scan tp st s _ hscan
    obtain ⟨h4, h5, h6⟩ := tickLoop_abort tp st s pre post a e hpre ha
    exact ⟨h1, by rw [h3, h4], by rw [h2, markedIds_scan_cons, h6], by rw [h2, h5]⟩

/-- Instance of the amended C24: the store rejects the update of alert 7, the
first of two due rows. -/
theorem tick_failure_locality_witness :
    (alertTick okTransport failingSchedulerStore connectedState).result = .ok () ∧
    (alertTick okTransport failingSchedulerStore connectedState).caught =
      some (.storeError "SQLITE_BUSY") ∧
    markedIds (alertTick okTransport failingSchedulerStore connectedState).trace =
      ([] : List DueAlert).map (fun b => b.alert_id) ++ [sampleDueAlert.alert_id] ∧
    (alertTick okTransport failingSchedulerStore connectedState).trace =
      .scan :: (tickLoop okTransport failingSchedulerStore connectedState
        ([] ++ [sampleDueAlert])).trace :=
  (tick_failure_locality okTransport failingSchedulerStore connectedState).2
    [] sampleDueAlert [systemDueAlert] (.storeError "SQLITE_BUSY") rfl (by simp) rfl

/-! ## Alert ticks over the tables -/

/-- In a table with unique keys, the lookup of the key of a row finds that
row. -/
theorem find_of_nodup_keys {α : Type} (key : α → Nat) (l : List α) (x : α)
    (hn : (l.map key).Nodup) (hx : x ∈ l) :
    l.find? (fun y => key y == key x) = some x := by
  induction l with
  | nil => exact absurd hx (List.not_mem_nil _)
  | cons y rest ih =>
    rw [List.map_cons, List.nodup_cons] at hn
    rcases List.mem_cons.mp hx with rfl | hrest
    · simp only [List.find?_cons, beq_self_eq_true]
    · have hne : key y ≠ key x := by
        intro heq
        exact hn.1 (heq ▸ List.mem_map_of_mem key hrest)
      have hb : (key y == key x) = false := by
        rw [beq_eq_false_iff_ne]
        exact hne
      rw [List.find?_cons]
      simp only [hb]
      exact ih hn.2 hrest

/-- A row of the scan comes from a pending alert and carries its id. -/
theorem joinDue_some (now : Int) (db : SchedulerDb) (a : AlertRow) (row : DueAlert)
    (h : joinDue now db a = some row) :
    row.alert_id = a.alert_id ∧ a.status = some "pending" := by
  unfold joinDue at h
  split at h
  · rename_i hc
    simp only [Bool.and_eq_true, beq_iff_eq] at hc
    split at h
    · exact absurd h (by simp)
    · split at h
      · exact absurd h (by simp)
      · split at h
        · exact absurd h (by simp)
        · simp only [Option.some.injEq] at h
          subst h
          exact ⟨rfl, hc.1⟩
  · exact absurd h (by simp)

/-- Membership in the due scan. -/
theorem mem_dueScan (now : Int) (db : SchedulerDb) (row : DueAlert) :
    row ∈ dueScan now db ↔ ∃ a ∈ db.alerts, joinDue now db a = some row := by
  unfold dueScan
  exact List.mem_filterMap

/-- The alert ids of the scan, in order, are alert ids of the table, in
order. -/
theorem dueScan_ids_sublist (now : Int) (db : SchedulerDb) :
    List.Sublist ((dueScan now db).map fun r => r.alert_id)
      (db.alerts.map fun a => a.alert_id) := by
  unfold dueScan
  generalize db.alerts = l
  induction l with
  | nil => exact List.Sublist.slnil
  | cons a rest ih =>
    rw [List.filterMap_cons]
    cases h : joinDue now db a with
    | none =>
      simp only [List.map_cons]
      exact List.Sublist.cons _ ih
    | some row =>
      simp only [List.map_cons]
      rw [(joinDue_some now db a row h).1]
      exact List.Sublist.cons₂ _ ih

/-- A tick on a table store updates exactly the rows of its scan. -/
theorem markedIds_tableTick (tp : Transport) (s : WaState) (now : Int) (db : SchedulerDb) :
    markedIds (alertTick tp (tableStore now db) s).trace =
      (dueScan now db).map fun a => a.alert_id := by
  obtain ⟨_, h2, _⟩ := alertTick_of_scan tp (tableStore now db) s (dueScan now db) rfl
  obtain ⟨_, h5⟩ := tickLoop_all_ok tp (tableStore now db) s (dueScan now db)
    (fun _ _ => rfl)
  rw [h2, markedIds_scan_cons, h5]

/-- An alert of the table after one update comes from an alert of the table
before: same id, status sent if it was sent or if it is the updated alert. -/
theorem mem_applyMarkSent (alerts : List AlertRow) (id : Nat) (a2 : AlertRow)
    (h : a2 ∈ applyMarkSent alerts id) :
    ∃ a ∈ alerts, a2.alert_id = a.alert_id ∧
      ((a.alert_id = id ∨ a.status = some "sent") → a2.status = some "sent") := by
  unfold applyMarkSent at h
  obtain ⟨a, ha, rfl⟩ := List.mem_map.mp h
  refine ⟨a, ha, ?_, ?_⟩
  · split <;> rfl
  · intro hor
    by_cases hid : a.alert_id = id
    · simp [hid]
    · rcases hor with h1 | h1
      · exact absurd h1 hid
      · simp [hid, h1]

/-- An alert of the table after a list of updates comes from an alert of the
table before: same id, status sent if it was sent or it is among the updated
ones. -/
theorem mem_foldl_applyMarkSent (ids : List Nat) :
    ∀ (alerts : List AlertRow) (a2 : AlertRow),
      a2 ∈ ids.foldl applyMarkSent alerts →
      ∃ a ∈ alerts, a2.alert_id = a.alert_id ∧
        ((a.alert_id ∈ ids ∨ a.status = some "sent") → a2.status = some "sent") := by
  induction ids with
  | nil =>
    intro alerts a2 h
    exact ⟨a2, h, rfl, fun hor => hor.elim (fun h => absurd h (List.not_mem_nil _)) id⟩
  | cons i rest ih =>
    intro alerts a2 h
    simp only [List.foldl_cons] at h
    obtain ⟨a1, ha1, hid1, hst1⟩ := ih (applyMarkSent alerts i) a2 h
    obtain ⟨a, ha, hid, hst⟩ := mem_applyMarkSent alerts i a1 ha1
    refine ⟨a, ha, hid1.trans hid, ?_⟩
    intro hor
    apply hst1
    rcases hor with hmem | hsent
    · rcases List.mem_cons.mp hmem with hi | hrest
      · exact Or.inr (hst (Or.inl hi))
      · exact Or.inl (by rw [hid]; exact hrest)
    · exact Or.inr (hst (Or.inr hsent))

/-- The scan returns alert 7 of the sample tables and not alert 9, whose
plant has no owner: the inner join with `users` drops it. -/
theorem dueScan_sampleDb :
    (dueScan 120 sampleDb).map (fun r => r.alert_id) = [7] := by
  decide

/-- C23, the claim as worded fails: the callback of the alert tick holds no
lock, so two ticks that overlap both scan the tables before either has
updated them; the pending alert 7, due since time 100, is found by both
scans, dispatched by both ticks and marked sent twice. -/
theorem overlapping_ticks_dispatch_twice :
    markedIds (overlappingTicks okTransport connectedState 120 180 sampleDb).1 = [7] ∧
    markedIds (overlappingTicks okTransport connectedState 120 180 sampleDb).2 = [7] ∧
    sendCalls (overlappingTicks okTransport connectedState 120 180 sampleDb).1 =
      [⟨1, some "9876543210", "🌱 Alert for Tomato A1: Water now"⟩] ∧
    sendCalls (overlappingTicks okTransport connectedState 120 180 sampleDb).2 =
      [⟨1, some "9876543210", "🌱 Alert for Tomato A1: Water now"⟩] := by
  decide

/-- C23, amended: when two alert ticks run one after the other (the second
starts after the first has finished) and the store operations succeed, a
pending alert whose `scheduled_time` is in the past, and whose plant and the
owner of that plant exist (the scan joins `alerts` with `plants` and
`users`), is found by the scan of the first tick, marked sent exactly once by
it, and is neither found nor marked by the second tick. The three tables have
unique primary keys. -/
theorem sequential_ticks_dispatch_once (tp : Transport) (s : WaState) (now1 now2 : Int)
    (db : SchedulerDb) (a : AlertRow) (p : PlantRow) (u : UserRow) (t : Int)
    (ha : a ∈ db.alerts) (hp : a.status = some "pending")
    (ht : a.scheduled_time = some t) (hle : t ≤ now1)
    (hplant : p ∈ db.plants) (hpid : p.plant_id = a.plant_id)
    (howner : p.user_id = some u.user_id) (huser : u ∈ db.users)
    (hka : (db.alerts.map fun x => x.alert_id).Nodup)
    (hkp : (db.plants.map fun x => x.plant_id).Nodup)
    (hku : (db.users.map fun x => x.user_id).Nodup) :
    (∃ row ∈ dueScan now1 db, row.alert_id = a.alert_id ∧ row.message = a.message ∧
      row.plant_name = p.plant_name ∧ row.whatsapp_number = u.whatsapp_number) ∧
    (markedIds (sequentialTicks tp s now1 now2 db).1).count a.alert_id = 1 ∧
    (∀ row ∈ dueScan now2 (applyTrace db (sequentialTicks tp s now1 now2 db).1),
      row.alert_id ≠ a.alert_id) ∧
    a.alert_id ∉ markedIds (sequentialTicks tp s now1 now2 db).2 := by
  have hfp : db.plants.find? (fun x => x.plant_id == a.plant_id) = some p := by
    rw [← hpid]
    exact find_of_nodup_keys (fun x => x.plant_id) db.plants p hkp hplant
  have hfu : db.users.find? (fun x => x.user_id == u.user_id) = some u :=
    find_of_nodup_keys (fun x => x.user_id) db.users u hku huser
  have hjoin : joinDue now1 db a = some
      { alert_id := a.alert_id, message := a.message, plant_name := p.plant_name,
        created_by_botanist_id := a.created_by_botanist_id,
        whatsapp_number := u.whatsapp_number, phone := u.phone, email := u.email } := by
    unfold joinDue
    simp only [hp, ht, hle, beq_self_eq_true, decide_True, Bool.and_self, if_true, hfp,
      howner, hfu]
  have hscan : ∃ row ∈ dueScan now1 db, row.alert_id = a.alert_id ∧ row.message = a.message ∧
      row.plant_name = p.plant_name ∧ row.whatsapp_number = u.whatsapp_number :=
    ⟨_, (mem_dueScan now1 db _).mpr ⟨a, ha, hjoin⟩, rfl, rfl, rfl, rfl⟩
  have h1 : markedIds (sequentialTicks tp s now1 now2 db).1 =
      (dueScan now1 db).map fun r => r.alert_id :=
    markedIds_tableTick tp s now1 db
  have hmem : a.alert_id ∈ (dueScan now1 db).map fun r => r.alert_id := by
    obtain ⟨row, hrow, hid, _⟩ := hscan
    exact List.mem_map.mpr ⟨row, hrow, hid⟩
  have hnodup : ((dueScan now1 db).map fun r => r.alert_id).Nodup :=
    hka.sublist (dueScan_ids_sublist now1 db)
  have hnot : ∀ row ∈ dueScan now2 (applyTrace db (sequentialTicks tp s now1 now2 db).1),
      row.alert_id ≠ a.alert_id := by
    intro row hrow heq
    obtain ⟨a2, ha2, hj2⟩ := (mem_dueScan _ _ row).mp hrow
    obtain ⟨hid2, hp2⟩ := joinDue_some _ _ a2 row hj2
    obtain ⟨a0, _, hid0, hst⟩ := mem_foldl_applyMarkSent _ db.alerts a2 ha2
    have hsent : a2.status = some "sent" := by
      apply hst
      left
      rw [h1, ← hid0, ← hid2, heq]
      exact hmem
    rw [hsent] at hp2
    exact absurd hp2 (by decide)
  refine ⟨hscan, ?_, hnot, ?_⟩
  · rw [h1]
    exact List.count_eq_one_of_mem hnodup hmem
  · have h2 : markedIds (sequentialTicks tp s now1 now2 db).2 =
        (dueScan now2 (applyTrace db (sequentialTicks tp s now1 now2 db).1)).map
          fun r => r.alert_id :=
      markedIds_tableTick tp s now2 _
    rw [h2]
    intro hin
    obtain ⟨row, hrow, heq⟩ := List.mem_map.mp hin
    exact hnot row hrow heq

/-- Instance of the amended C23: alert 7 of the sample tables, for plant 4 of
farmer 2, with ticks at times 120 and 180. -/
theorem sequential_ticks_dispatch_once_witness :
    (∃ row ∈ dueScan 120 sampleDb, row.alert_id = 7 ∧ row.message = "Water now" ∧
      row.plant_name = "Tomato A1" ∧ row.whatsapp_number = some "9876543210") ∧
    (markedIds (sequentialTicks okTransport connectedState 120 180 sampleDb).1).count 7 = 1 ∧
    (∀ row ∈ dueScan 180 (applyTrace sampleDb
        (sequentialTicks okTransport connectedState 120 180 sampleDb).1),
      row.alert_id ≠ 7) ∧
    7 ∉ markedIds (sequentialTicks okTransport connectedState 120 180 sampleDb).2 :=
  sequential_ticks_dispatch_once okTransport connectedState 120 180 sampleDb
    ⟨7, 4, "Water now", some "pending", some 100, some 1⟩
    ⟨4, "Tomato A1", some 2⟩
    ⟨2, some "9876543210", some "9876543210", some "ravi@example.com"⟩ 100
    (by decide) rfl rfl (by decide) (by decide) rfl rfl (by decide)
    (by decide) (by decide) (by decide)

/-! ## Properties of the report worker -/

/-- C25: the due scan of the report worker selects a schedule, at time `now`,
if and only if `last_sent` is null, or the type is weekly and `now -
last_sent` is at least 7 days, or the type is monthly and `now - last_sent`
is at least 30 days; a schedule with `last_sent` null is always due, a weekly
schedule last sent 8 days ago is due, and a schedule last sent 3 days ago is
not due, whatever its type. -/
theorem isDue_iff_specDue :
    (∀ (now : Int) (s : ReportSchedule), isDue now s = true ↔ specDue now s) ∧
    (∀ (now : Int) (s : ReportSchedule), s.last_sent = none → isDue now s = true) ∧
    (∀ (now : Int) (s : ReportSchedule), s.report_type = "weekly" →
      s.last_sent = some (now - 8 * secondsPerDay) → isDue now s = true) ∧
    (∀ (now : Int) (s : ReportSchedule),
      s.last_sent = some (now - 3 * secondsPerDay) → isDue now s = false) := by
  refine ⟨?_, ?_, ?_, ?_⟩
  · intro now s
    unfold isDue specDue
    cases hls : s.last_sent with
    | none => simp
    | some t =>
      simp only [Option.isNone_some, Bool.false_or, Bool.or_eq_true, Bool.and_eq_true,
        beq_iff_eq, decide_eq_true_eq, Option.some.injEq, exists_eq_left']
      constructor
      · rintro (⟨h1, h2⟩ | ⟨h1, h2⟩)
        · exact Or.inr (Or.inl ⟨h1, by linarith⟩)
        · exact Or.inr (Or.inr ⟨h1, by linarith⟩)
      · rintro (h0 | ⟨h1, h2⟩ | ⟨h1, h2⟩)
        · exact absurd h0 (by simp)
        · exact Or.inl ⟨h1, by linarith⟩
        · exact Or.inr ⟨h1, by linarith⟩
  · intro now s h
    simp [isDue, h]
  · intro now s hty h
    simp only [isDue, h, hty, secondsPerDay, Option.isNone_some, Bool.false_or, beq_self_eq_true,
      Bool.true_and, Bool.or_eq_true, decide_eq_true_eq, Bool.and_eq_true]
    exact Or.inl (by linarith)
  · intro now s h
    rw [Bool.eq_false_iff]
    intro hd
    simp only [isDue, h, secondsPerDay, Option.isNone_some, Bool.false_or, Bool.or_eq_true,
      Bool.and_eq_true, decide_eq_true_eq] at hd
    rcases hd with ⟨_, h2⟩ | ⟨_, h2⟩ <;> linarith

/-- The delivery block of a schedule whose user has a WhatsApp number throws
a `TypeError` before any call. -/
theorem reportDelivery_throws (st : ReportStore) (today : String) (s : ReportSchedule)
    (hnum : truthy s.whatsapp_number = true) :
    ∃ msg, reportDelivery st today s = ⟨.error (.typeError msg), []⟩ := by
  unfold reportDelivery
  simp only [hnum, if_true, sendWhatsAppMessage_undefined]
  cases s.format with
  | none => exact ⟨_, rfl⟩
  | some f => exact ⟨_, rfl⟩

/-- The report worker after a successful scan: the scan, then the loop; the
`catch` swallows the error of the loop. -/
theorem processScheduledReports_of_scan (st : ReportStore) (today : String)
    (schedules : List ReportSchedule) (hscan : st.dueSchedules = .ok schedules) :
    (processScheduledReports st today).result = .ok () ∧
    (processScheduledReports st today).trace = .scan :: (reportLoop st today schedules).trace ∧
    (processScheduledReports st today).caught =
      (match (reportLoop st today schedules).result with
       | .error e => some e
       | .ok _ => none) := by
  unfold processScheduledReports
  simp only [hscan]
  cases (reportLoop st today schedules).result <;> exact ⟨rfl, rfl, rfl⟩

/-- C26, what the code does: for a due schedule whose user has at least one
plot and a WhatsApp number, the delivery block throws a `TypeError` (the
binding `sendWhatsAppMessage` is undefined), the `catch` around the whole
worker ends the loop, `last_sent` is not updated, no send is attempted and
the remaining due schedules are not processed. -/
theorem report_with_number_not_updated (st : ReportStore) (today : String)
    (s : ReportSchedule) (rest : List ReportSchedule) (plots : List Nat)
    (hscan : st.dueSchedules = .ok (s :: rest))
    (hplots : st.plots s.user_id = .ok plots) (hne : plots ≠ [])
    (hnum : truthy s.whatsapp_number = true) :
    (processScheduledReports st today).result = .ok () ∧
    (processScheduledReports st today).trace = [.scan, .queryPlots s.user_id] ∧
    updatedIds (processScheduledReports st today).trace = [] ∧
    reportCalls (processScheduledReports st today).trace = [] ∧
    ∃ msg, (processScheduledReports st today).caught = some (.typeError msg) := by
  obtain ⟨msg, hdel⟩ := reportDelivery_throws st today s hnum
  have hlen : plots.length ≠ 0 := by
    intro h
    exact hne (List.length_eq_zero.mp h)
  have hloop : reportLoop st today (s :: rest) =
      ⟨.error (.typeError msg), [.queryPlots s.user_id]⟩ := by
    rw [reportLoop]
    simp only [hplots, hlen, if_false, hdel]
  obtain ⟨h1, h2, h3⟩ := processScheduledReports_of_scan st today (s :: rest) hscan
  rw [hloop] at h2 h3
  refine ⟨h1, h2, ?_, ?_, msg, h3⟩
  · rw [h2]
    rfl
  · rw [h2]
    rfl

/-- Instance of C26: the weekly schedule of a farmer with two plants and a
WhatsApp number, followed by a second due schedule. -/
theorem report_with_number_not_updated_witness :
    (processScheduledReports (okReportStore [sampleSchedule, quietSchedule])
      "2024-06-15").result = .ok () ∧
    (processScheduledReports (okReportStore [sampleSchedule, quietSchedule])
      "2024-06-15").trace = [.scan, .queryPlots sampleSchedule.user_id] ∧
    updatedIds (processScheduledReports (okReportStore [sampleSchedule, quietSchedule])
      "2024-06-15").trace = [] ∧
    reportCalls (processScheduledReports (okReportStore [sampleSchedule, quietSchedule])
      "2024-06-15").trace = [] ∧
    ∃ msg, (processScheduledReports (okReportStore [sampleSchedule, quietSchedule])
      "2024-06-15").caught = some (.typeError msg) :=
  report_with_number_not_updated (okReportStore [sampleSchedule, quietSchedule])
    "2024-06-15" sampleSchedule [quietSchedule] [11, 12] rfl rfl (by decide) (by decide)

/-- A schedule that is due stays due while its `last_sent` is unchanged. -/
theorem isDue_mono (now later : Int) (s : ReportSchedule) (h : isDue now s = true)
    (hle : now ≤ later) : isDue later s = true := by
  unfold isDue at h ⊢
  cases hls : s.last_sent with
  | none => simp
  | some t =>
    simp only [hls, Option.isNone_some, Bool.false_or, Bool.or_eq_true, Bool.and_eq_true,
      beq_iff_eq, decide_eq_true_eq] at h ⊢
    rcases h with ⟨h1, h2⟩ | ⟨h1, h2⟩
    · exact Or.inl ⟨h1, by linarith⟩
    · exact Or.inr ⟨h1, by linarith⟩

/-- C27: for every due schedule whose user owns no plots, the iteration of
`processScheduledReports` for it consists of the plant query alone: no send
attempt and no update of `last_sent`, so the schedule is still due at every
later time; and the loop continues with the next due schedule. -/
theorem plotless_schedule_skipped (st : ReportStore) (today : String)
    (s : ReportSchedule) (rest : List ReportSchedule)
    (hplots : st.plots s.user_id = .ok []) :
    reportLoop st today (s :: rest) =
      ⟨(reportLoop st today rest).result,
        .queryPlots s.user_id :: (reportLoop st today rest).trace⟩ ∧
    updatedIds (reportLoop st today (s :: rest)).trace =
      updatedIds (reportLoop st today rest).trace ∧
    reportCalls (reportLoop st today (s :: rest)).trace =
      reportCalls (reportLoop st today rest).trace ∧
    (st.dueSchedules = .ok (s :: rest) →
      (processScheduledReports st today).trace =
        .scan :: .queryPlots s.user_id :: (reportLoop st today rest).trace) ∧
    (∀ now later : Int, isDue now s = true → now ≤ later → isDue later s = true) := by
  have hloop : reportLoop st today (s :: rest) =
      ⟨(reportLoop st today rest).result,
        .queryPlots s.user_id :: (reportLoop st today rest).trace⟩ := by
    rw [reportLoop]
    simp only [hplots, List.length_nil, if_true]
  refine ⟨hloop, ?_, ?_, ?_, ?_⟩
  · rw [hloop]
    rfl
  · rw [hloop]
    rfl
  · intro hscan
    obtain ⟨_, h2, _⟩ := processScheduledReports_of_scan st today (s :: rest) hscan
    rw [h2, hloop]
  · intro now later h hle
    exact isDue_mono now later s h hle

/-- Instance of C27: the schedule of a user without plants, followed by one
more due schedule. -/
theorem plotless_schedule_skipped_witness :
    reportLoop (okReportStore [quietSchedule, sampleSchedule]) "2024-06-15"
        (quietSchedule :: [sampleSchedule]) =
      ⟨(reportLoop (okReportStore [quietSchedule, sampleSchedule]) "2024-06-15"
          [sampleSchedule]).result,
        .queryPlots quietSchedule.user_id ::
          (reportLoop (okReportStore [quietSchedule, sampleSchedule]) "2024-06-15"
            [sampleSchedule]).trace⟩ ∧
    updatedIds (reportLoop (okReportStore [quietSchedule, sampleSchedule]) "2024-06-15"
        (quietSchedule :: [sampleSchedule])).trace =
      updatedIds (reportLoop (okReportStore [quietSchedule, sampleSchedule]) "2024-06-15"
        [sampleSchedule]).trace ∧
    reportCalls (reportLoop (okReportStore [quietSchedule, sampleSchedule]) "2024-06-15"
        (quietSchedule :: [sampleSchedule])).trace =
      reportCalls (reportLoop (okReportStore [quietSchedule, sampleSchedule]) "2024-06-15"
        [sampleSchedule]).trace ∧
    ((okReportStore [quietSchedule, sampleSchedule]).dueSchedules =
        .ok (quietSchedule :: [sampleSchedule]) →
      (processScheduledReports (okReportStore [quietSchedule, sampleSchedule])
          "2024-06-15").trace =
        .scan :: .queryPlots quietSchedule.user_id ::
          (reportLoop (okReportStore [quietSchedule, sampleSchedule]) "2024-06-15"
            [sampleSchedule]).trace) ∧
    (∀ now later : Int, isDue now quietSchedule = true → now ≤ later →
      isDue later quietSchedule = true) :=
  plotless_schedule_skipped (okReportStore [quietSchedule, sampleSchedule]) "2024-06-15"
    quietSchedule [sampleSchedule] rfl

/-! ## The scorer and the rule evaluator together -/

/-- The scorer and the rule evaluator do no validation of their own: called
with a reading whose six fields are all `undefined` (`NaN` after `ToNumber`),
`calculateHealthScore` returns 100 and `processAlertRules` completes; called
with moisture 25 and the other fields `undefined`, they return the score 70
and the irrigation draft. -/
theorem undefined_fields_are_scored :
    calculateHealthScore missingReading = 100 ∧
    (processAlertRules (okEnv sampleFarmer) 1 missingReading).completed = true ∧
    calculateHealthScore partialReading = 70 ∧
    alertDrafts partialReading = [moistureAlert] := by
  refine ⟨by decide, ?_, by decide, ?_⟩
  · have hd : alertDrafts missingReading = [] := by
      rw [alertDrafts_eq]
      rfl
    exact (processAlertRules_of_no_drafts _ _ _ hd).2
  · rw [alertDrafts_eq]
    rfl

/-- A reading that is not well formed has a field without a number. -/
theorem validateReading_error (r : RawReading) (h : r.wellFormed = false) :
    ∃ field, validateReading r = .error (.validationError field) := by
  unfold validateReading
  unfold RawReading.wellFormed at h
  cases h1 : r.soil_moisture.number? with
  | none => exact ⟨_, rfl⟩
  | some m =>
    cases h2 : r.temperature.number? with
    | none => exact ⟨_, rfl⟩
    | some t =>
      cases h3 : r.soil_ph.number? with
      | none => exact ⟨_, rfl⟩
      | some ph =>
        cases h4 : r.nutrient_n.number? with
        | none => exact ⟨_, rfl⟩
        | some n =>
          cases h5 : r.nutrient_p.number? with
          | none => exact ⟨_, rfl⟩
          | some p =>
            cases h6 : r.nutrient_k.number? with
            | none => exact ⟨_, rfl⟩
            | some k => simp [h1, h2, h3, h4, h5, h6] at h

/-- C28: a reading with a missing or malformed (non-numeric) field is
rejected with a validation error before scoring: the evaluation returns the
error, so neither a score of `calculateHealthScore` nor drafts of the rule
evaluation are produced for it; a reading whose six fields are numbers is not
rejected and gets the score and the drafts of the code. -/
theorem evaluateReading_rejects_malformed (r : RawReading) (h : r.wellFormed = false) :
    (∃ field, evaluateReading r = .error (.validationError field)) ∧
    (∀ score drafts, evaluateReading r ≠ .ok (score, drafts)) ∧
    (∀ m t ph n p k : ℚ,
      evaluateReading ⟨.number m, .number t, .number ph, .number n, .number p, .number k⟩ =
        .ok (calculateHealthScore ⟨.fin m, .fin t, .fin ph, .fin n, .fin p, .fin k⟩,
          alertDrafts ⟨.fin m, .fin t, .fin ph, .fin n, .fin p, .fin k⟩)) := by
  obtain ⟨field, hf⟩ := validateReading_error r h
  have he : evaluateReading r = .error (.validationError field) := by
    unfold evaluateReading
    rw [hf]
  refine ⟨⟨field, he⟩, ?_, ?_⟩
  · intro score drafts hok
    rw [he] at hok
    exact absurd hok (by simp)
  · intro m t ph n p k
    rfl

/-- Instance of C28: a reading with moisture 25 and no temperature is
rejected, although its moisture alone would fire the irrigation rule. -/
theorem evaluateReading_rejects_malformed_witness :
    (∃ field, evaluateReading incompleteRawReading = .error (.validationError field)) ∧
    (∀ score drafts, evaluateReading incompleteRawReading ≠ .ok (score, drafts)) ∧
    (∀ m t ph n p k : ℚ,
      evaluateReading ⟨.number m, .number t, .number ph, .number n, .number p, .number k⟩ =
        .ok (calculateHealthScore ⟨.fin m, .fin t, .fin ph, .fin n, .fin p, .fin k⟩,
          alertDrafts ⟨.fin m, .fin t, .fin ph, .fin n, .fin p, .fin k⟩)) :=
  evaluateReading_rejects_malformed incompleteRawReading (by decide)

/-- The JavaScript test `x < a` implies `x < b` for `a <= b`. -/
theorem lt_of_lt_of_le_const (x : JsNum) (a b : ℚ) (hab : a ≤ b) (h : x.lt a = true) :
    x.lt b = true := by
  cases x with
  | fin q =>
    simp only [JsNum.lt, decide_eq_true_eq] at h ⊢
    linarith
  | nan => simp [JsNum.lt] at h
  | posInf => simp [JsNum.lt] at h
  | negInf => rfl

/-- The JavaScript test `x > a` implies `x > b` for `b <= a`. -/
theorem gt_of_gt_of_le_const (x : JsNum) (a b : ℚ) (hab : b ≤ a) (h : x.gt a = true) :
    x.gt b = true := by
  cases x with
  | fin q =>
    simp only [JsNum.gt, decide_eq_true_eq] at h ⊢
    linarith
  | nan => simp [JsNum.gt] at h
  | posInf => rfl
  | negInf => simp [JsNum.gt] at h

/-- The bound of the score by the alert rules that fire. -/
theorem score_le_of_rules (d : SensorData) :
    calculateHealthScore d ≤
      100 - 30 * (if d.soil_moisture.lt 30 then 1 else 0)
        - 20 * (if d.temperature.gt 38 then 1 else 0)
        - 10 * (if d.soil_ph.lt 5.5 || d.soil_ph.gt 7.5 then 1 else 0) := by
  rw [calculateHealthScore_unfold]
  have hm : (30 : Int) * (if d.soil_moisture.lt 30 then 1 else 0) ≤
      (if d.soil_moisture.lt 30 || d.soil_moisture.gt 90 then 30
        else if d.soil_moisture.lt 40 || d.soil_moisture.gt 80 then 15 else 0) := by
    cases d.soil_moisture.lt 30 <;> cases d.soil_moisture.gt 90 <;>
      cases d.soil_moisture.lt 40 <;> cases d.soil_moisture.gt 80 <;> decide
  have ht : (20 : Int) * (if d.temperature.gt 38 then 1 else 0) ≤
      (if d.temperature.lt 5 || d.temperature.gt 38 then 20
        else if d.temperature.lt 15 || d.temperature.gt 32 then 10 else 0) := by
    cases d.temperature.gt 38 <;> cases d.temperature.lt 5 <;>
      cases d.temperature.lt 15 <;> cases d.temperature.gt 32 <;> decide
  have hp : (10 : Int) * (if d.soil_ph.lt 5.5 || d.soil_ph.gt 7.5 then 1 else 0) ≤
      (if d.soil_ph.lt 5 || d.soil_ph.gt 8 then 20
        else if d.soil_ph.lt 6 || d.soil_ph.gt 7 then 10 else 0) := by
    cases hr : (d.soil_ph.lt 5.5 || d.soil_ph.gt 7.5) with
    | false =>
      cases d.soil_ph.lt 5 <;> cases d.soil_ph.gt 8 <;>
        cases d.soil_ph.lt 6 <;> cases d.soil_ph.gt 7 <;> decide
    | true =>
      have h67 : (d.soil_ph.lt 6 || d.soil_ph.gt 7) = true := by
        rw [Bool.or_eq_true] at hr ⊢
        rcases hr with h | h
        · exact Or.inl (lt_of_lt_of_le_const _ 5.5 6 (by norm_num) h)
        · exact Or.inr (gt_of_gt_of_le_const _ 7.5 7 (by norm_num) h)
      rw [h67]
      cases (d.soil_ph.lt 5 || d.soil_ph.gt 8) <;> decide
  have hn : (0 : Int) ≤
      (if d.nutrient_n.lt 10 || d.nutrient_p.lt 10 || d.nutrient_k.lt 10 then 20 else 0) := by
    split <;> decide
  have hm1 : (0 : Int) ≤ (if d.soil_moisture.lt 30 then 1 else 0) ∧
      (if d.soil_moisture.lt 30 then 1 else 0) ≤ (1 : Int) := by
    split <;> decide
  have ht1 : (0 : Int) ≤ (if d.temperature.gt 38 then 1 else 0) ∧
      (if d.temperature.gt 38 then 1 else 0) ≤ (1 : Int) := by
    split <;> decide
  have hp1 : (0 : Int) ≤ (if d.soil_ph.lt 5.5 || d.soil_ph.gt 7.5 then 1 else 0) ∧
      (if d.soil_ph.lt 5.5 || d.soil_ph.gt 7.5 then 1 else 0) ≤ (1 : Int) := by
    split <;> decide
  apply max_le
  · linarith [hm1.2, ht1.2, hp1.2]
  · exact le_trans (min_le_right _ _) (by linarith)

/-- C29: the scorer and the rule evaluator are consistent: for every reading,
`calculateHealthScore` is at most 100 minus 30 when the moisture rule fires,
minus 20 when the temperature rule fires, minus 10 when the pH rule fires;
hence a reading with at least one alert draft scores at most 90, and a
reading on which all three rules fire scores at most 40 and is classified
Critical by `getHealthStatus`. -/
theorem score_consistent_with_rules (d : SensorData) :
    calculateHealthScore d ≤
      100 - 30 * (if d.soil_moisture.lt 30 then 1 else 0)
        - 20 * (if d.temperature.gt 38 then 1 else 0)
        - 10 * (if d.soil_ph.lt 5.5 || d.soil_ph.gt 7.5 then 1 else 0) ∧
    (alertDrafts d ≠ [] → calculateHealthScore d ≤ 90) ∧
    (alertDrafts d = [moistureAlert, temperatureAlert, phAlert] →
      calculateHealthScore d ≤ 40 ∧
      (getHealthStatus (.fin (calculateHealthScore d))).label = "Critical") := by
  have hb := score_le_of_rules d
  have hdr := alertDrafts_eq d
  refine ⟨hb, ?_, ?_⟩
  · intro hne
    rw [hdr] at hne
    cases hm : d.soil_moisture.lt 30 <;> cases ht : d.temperature.gt 38 <;>
      cases hp : (d.soil_ph.lt 5.5 || d.soil_ph.gt 7.5) <;>
      simp only [hm, ht, hp, Bool.false_eq_true, if_false, if_true] at hb hne <;>
      first
        | exact absurd rfl hne
        | linarith
  · intro hall
    rw [hdr] at hall
    have h40 : calculateHealthScore d ≤ 40 := by
      cases hm : d.soil_moisture.lt 30 <;> cases ht : d.temperature.gt 38 <;>
        cases hp : (d.soil_ph.lt 5.5 || d.soil_ph.gt 7.5) <;>
        simp only [hm, ht, hp, Bool.false_eq_true, if_false, if_true] at hb hall <;>
        first
          | linarith
          | exact absurd hall (by decide)
    refine ⟨h40, ?_⟩
    have h80 : ¬ (80 : ℚ) ≤ (calculateHealthScore d : ℚ) := by
      intro h
      have : (80 : Int) ≤ calculateHealthScore d := by exact_mod_cast h
      linarith
    have h50 : ¬ (50 : ℚ) ≤ (calculateHealthScore d : ℚ) := by
      intro h
      have : (50 : Int) ≤ calculateHealthScore d := by exact_mod_cast h
      linarith
    simp [getHealthStatus, JsNum.ge, h80, h50]

/-! ## Address normalization -/

/-- The digits of a digit string followed by the chat suffix are the digit
string. -/
theorem stripNonDigits_digits_suffix (l : List Char) (h : ∀ c ∈ l, c.isDigit = true) :
    stripNonDigits (⟨l⟩ ++ "@c.us") = ⟨l⟩ := by
  unfold stripNonDigits
  simp only [String.data_append, List.filter_append]
  have h1 : l.filter Char.isDigit = l := List.filter_eq_self.mpr h
  have h2 : ("@c.us" : String).data.filter Char.isDigit = [] := by decide
  rw [h1, h2, List.append_nil]

/-- C30: the address normalization of `sendFromBotanist` is idempotent: for
every input string, normalizing the normalized chat id again yields the same
chat id; and the chat id always consists of digits only, followed by exactly
one "@c.us" suffix. -/
theorem formatNumber_idempotent (dest : String) :
    formatNumber (formatNumber dest) = formatNumber dest ∧
    ∃ digits : List Char, (∀ c ∈ digits, c.isDigit = true) ∧
      formatNumber dest = ⟨digits⟩ ++ "@c.us" ∧
      stripNonDigits (formatNumber dest) = ⟨digits⟩ ∧
      endsWith ⟨digits⟩ "@c.us" = false := by
  have hd : ∀ c ∈ (stripNonDigits dest).data, c.isDigit = true := by
    intro c hc
    simp only [stripNonDigits, List.mem_filter] at hc
    exact hc.2
  have key : ∀ digits : List Char, (∀ c ∈ digits, c.isDigit = true) →
      digits.length ≠ 10 → formatNumber dest = ⟨digits⟩ ++ "@c.us" →
      formatNumber (formatNumber dest) = formatNumber dest ∧
      ∃ digits : List Char, (∀ c ∈ digits, c.isDigit = true) ∧
        formatNumber dest = ⟨digits⟩ ++ "@c.us" ∧
        stripNonDigits (formatNumber dest) = ⟨digits⟩ ∧
        endsWith ⟨digits⟩ "@c.us" = false := by
    intro digits hdig hlen hfmt
    have hstrip : stripNonDigits (formatNumber dest) = ⟨digits⟩ := by
      rw [hfmt]
      exact stripNonDigits_digits_suffix digits hdig
    have hlen2 : (stripNonDigits (formatNumber dest)).length ≠ 10 := by
      rw [hstrip]
      exact hlen
    refine ⟨?_, digits, hdig, hfmt, hstrip, not_endsWith_of_digits digits hdig⟩
    rw [formatNumber_eq (formatNumber dest), if_neg hlen2, hstrip, ← hfmt]
  by_cases h : (stripNonDigits dest).length = 10
  · apply key ('9' :: '1' :: (stripNonDigits dest).data)
    · intro c hc
      rcases List.mem_cons.mp hc with rfl | hc
      · decide
      · rcases List.mem_cons.mp hc with rfl | hc
        · decide
        · exact hd c hc
    · have h10 : (stripNonDigits dest).data.length = 10 := h
      simp [h10]
    · rw [formatNumber_eq, if_pos h]
      rfl
  · apply key (stripNonDigits dest).data hd h
    rw [formatNumber_eq, if_neg h]

end PlantMonitor
